import Mathlib

set_option maxRecDepth 200000

/-!
Shallow embedding of the Sudoku solver source (classes SudokuCell and
SudokuGrid and the propagation algorithm).  In-place mutation of cells and
grids is modelled by explicit state passing; the UnsolvableGridError
exception is modelled with Except; the unbounded outer while-loop of
solve is modelled with explicit fuel (a result of none means the source
program has not finished within that many loop iterations).
-/

/-- The UnsolvableGridError exception class of the source (a RuntimeError
carrying its argument). -/
structure UnsolvableGridError where
  msg : String
deriving DecidableEq, Repr

/-- The state of one SudokuCell object: its fields value, possible and
impossible (Python lists of ints). -/
structure SudokuCell where
  value : Int
  possible : List Int
  impossible : List Int
deriving DecidableEq, Repr

namespace SudokuCell

/-- The class constant DEFAULT_VALUE = 0 marking cells of unknown value. -/
def DEFAULT_VALUE : Int := 0

/-- The classmethod get_default_value. -/
def get_default_value : Int := DEFAULT_VALUE

/-- The classmethod is_default_value: whether the given value is the default. -/
def is_default_value (value : Int) : Bool := value == get_default_value

/-- Getter for the value field. -/
def get_value (c : SudokuCell) : Int := c.value

/-- Setter for the value field.  Note: exactly as in the source, it changes
only the value field and leaves possible and impossible untouched. -/
def set_value (c : SudokuCell) (value : Int) : SudokuCell := { c with value := value }

/-- Whether the given value is still in the possible list. -/
def is_value_possible (c : SudokuCell) (value : Int) : Bool := c.possible.contains value

/-- Whether the cell's value is known for sure (value differs from default). -/
def is_value_certain (c : SudokuCell) : Bool := ! is_default_value c.get_value

/-- The SudokuCell constructor: stores the given value; if it is certain the
possible list is [value] and impossible is the values of range(9) not in it,
otherwise possible is list(range(1, 10)) and impossible is empty. -/
def init (value : Int) : SudokuCell :=
  if ! is_default_value value then
    { value := value
      possible := [value]
      impossible := ((List.range 9).map (fun x => (x : Int))).filter
        (fun x => ! [value].contains x) }
  else
    { value := value
      possible := (List.range 9).map (fun x => (x : Int) + 1)
      impossible := [] }

/-- The method can_value_be_determined: returns False for certain cells,
otherwise assigns the single remaining possible value (returning True),
raises UnsolvableGridError when no possible value remains, and returns
False when several remain.  The possibly mutated cell is returned alongside
the boolean. -/
def can_value_be_determined (c : SudokuCell) :
    Except UnsolvableGridError (Bool × SudokuCell) :=
  if c.is_value_certain then
    .ok (false, c)
  else if c.possible.length == 1 then
    .ok (true, c.set_value (c.possible.getD 0 0))
  else if c.possible.length == 0 then
    .error { msg := "This grid cannot be solved!" }
  else
    .ok (false, c)

/-- The index computed by the while-loop of set_value_to_impossible: the
number of leading entries of the impossible list that are smaller than the
value being inserted. -/
def insert_index (value : Int) : List Int → Nat
  | [] => 0
  | x :: xs => if value > x then insert_index value xs + 1 else 0

/-- Insertion of an element at a given position of a list (the Python
list.insert(index, value); appending when the index is past the end). -/
def list_insert_at (index : Nat) (value : α) (l : List α) : List α :=
  match index, l with
  | _, [] => [value]
  | 0, l => value :: l
  | n + 1, x :: xs => x :: list_insert_at n value xs

/-- The method set_value_to_impossible: if the value is still possible it is
removed from the possible list (Python list.remove drops the first
occurrence) and inserted into the impossible list at the sorted position. -/
def set_value_to_impossible (c : SudokuCell) (value : Int) : SudokuCell :=
  if c.possible.contains value then
    { c with
      possible := c.possible.erase value
      impossible := list_insert_at (insert_index value c.impossible) value c.impossible }
  else
    c

/-- The method eliminate_conflicting_values.  The source mutates the
uncertain cell of the pair (through set_value_to_impossible and
can_value_be_determined) and returns a boolean; here the boolean is
returned together with the updated pair (self, other). -/
def eliminate_conflicting_values (self other : SudokuCell) :
    Except UnsolvableGridError (Bool × SudokuCell × SudokuCell) :=
  let self_is_certain := self.is_value_certain
  let other_is_certain := other.is_value_certain
  if self_is_certain && ! other_is_certain then
    match can_value_be_determined (other.set_value_to_impossible self.get_value) with
    | .error e => .error e
    | .ok (b, u) => .ok (b, self, u)
  else if (! self_is_certain) && other_is_certain then
    match can_value_be_determined (self.set_value_to_impossible other.get_value) with
    | .error e => .error e
    | .ok (b, u) => .ok (b, u, other)
  else
    .ok (false, self, other)

/-- The method clone: a new cell built by the constructor from the current
value only. -/
def clone (c : SudokuCell) : SudokuCell := init c.get_value

end SudokuCell

/-- Total lookup in a list of lists (row then column), with a default for
out-of-range indices; every access performed by the source is in range. -/
def mget (d : α) (m : List (List α)) (row column : Nat) : α :=
  (m.getD row []).getD column d

/-- Update of one entry of a list of lists (no-op out of range, matching
that the source never indexes out of range). -/
def mset (m : List (List α)) (row column : Nat) (x : α) : List (List α) :=
  m.set row ((m.getD row []).set column x)

/-- The state of one SudokuGrid object: the 9x9 list of cells, the matching
matrix of used-cell flags and the custom symbol for unknown cells. -/
structure SudokuGrid where
  grid : List (List SudokuCell)
  used_cell : List (List Bool)
  custom_unknown_cell_symbol : String
deriving DecidableEq, Repr

namespace SudokuGrid

/-- The SudokuGrid constructor: a 9x9 grid of default cells, a same-sized
all-False used_cell matrix, and the given unknown-cell symbol. -/
def init (custom_unk_symb : String) : SudokuGrid :=
  { grid := (List.range 9).map (fun _ =>
      (List.range 9).map (fun _ => SudokuCell.init SudokuCell.DEFAULT_VALUE))
    used_cell := (List.range 9).map (fun _ => (List.range 9).map (fun _ => false))
    custom_unknown_cell_symbol := custom_unk_symb }

/-- Reading the cell object self._grid[row][column]. -/
def cell (g : SudokuGrid) (row column : Nat) : SudokuCell :=
  mget (SudokuCell.init SudokuCell.DEFAULT_VALUE) g.grid row column

/-- Writing the cell at a position (the effect, in the value model, of
mutating the aliased cell object at that position). -/
def set_cell (g : SudokuGrid) (row column : Nat) (c : SudokuCell) : SudokuGrid :=
  { g with grid := mset g.grid row column c }

/-- Reading self._used_cell[row][column]. -/
def used (g : SudokuGrid) (row column : Nat) : Bool :=
  mget false g.used_cell row column

/-- Writing self._used_cell[row][column]. -/
def set_used (g : SudokuGrid) (row column : Nat) (b : Bool) : SudokuGrid :=
  { g with used_cell := mset g.used_cell row column b }

/-- The classmethod create_from_matrix: a fresh default grid whose cells
then get set_value applied with the matching matrix entries, looping i over
range(len(matrix)) and j over range(len(matrix[0])). -/
def create_from_matrix (matrix : List (List Int)) : SudokuGrid :=
  (List.range matrix.length).foldl (fun g i =>
    (List.range (matrix.getD 0 []).length).foldl (fun g j =>
      g.set_cell i j ((g.cell i j).set_value (mget 0 matrix i j))) g)
    (SudokuGrid.init "")

/-- The method get_as_matrix: a 9x9 matrix of -1 entries overwritten with
the cell values, looping i over range(len(self._grid)) and j over
range(len(self._grid[0])). -/
def get_as_matrix (g : SudokuGrid) : List (List Int) :=
  (List.range g.grid.length).foldl (fun m i =>
    (List.range (g.grid.getD 0 []).length).foldl (fun m j =>
      mset m i j (g.cell i j).get_value) m)
    ((List.range 9).map (fun _ => (List.range 9).map (fun _ => (-1 : Int))))

/-- The method get_square_code: the 3x3-block index of a position, computed
from the row band and the column band exactly as the if-chains of the
source do. -/
def get_square_code (row column : Nat) : Nat :=
  let horizontal_num : Nat := if row ≤ 2 then 0 else if row ≤ 5 then 1 else 2
  let vertical_num : Nat := if column ≤ 2 then 0 else if column ≤ 5 then 1 else 2
  horizontal_num * 3 + vertical_num

/-- The (row, column) positions enumerated by get_square_cells for a square
code, in the iteration order of its two nested loops.  The source collects
the aliased cell objects; positions stand for those aliases in the value
model. -/
def square_indices (square_code : Nat) : List (Nat × Nat) :=
  let horizontal_num := square_code % 3
  let vertical_num := (square_code - horizontal_num) / 3
  (List.range' (vertical_num * 3) 3).flatMap (fun row =>
    (List.range' (horizontal_num * 3) 3).map (fun column => (row, column)))

/-- The method get_square_cells: all cells inside the square of the given
code, rows vertical_num*3 .. vertical_num*3+2, columns horizontal_num*3 ..
horizontal_num*3+2. -/
def get_square_cells (g : SudokuGrid) (square_code : Nat) : List SudokuCell :=
  let horizontal_num := square_code % 3
  let vertical_num := (square_code - horizontal_num) / 3
  (List.range' (vertical_num * 3) 3).flatMap (fun row =>
    (List.range' (horizontal_num * 3) 3).map (fun column => g.cell row column))

/-- The row-major scan order of is_solved: index runs to
len(grid)*len(grid[0]), column = index mod len(grid[0]) and row the
matching quotient. -/
def scan_order (g : SudokuGrid) : List (Nat × Nat) :=
  (List.range (g.grid.length * (g.grid.getD 0 []).length)).map (fun index =>
    let column := index % (g.grid.getD 0 []).length
    ((index - column) / (g.grid.getD 0 []).length, column))

/-- The while-loop of is_solved over the remaining scan positions.  At an
uncertain cell the source calls can_value_be_determined without advancing
the index: on success the re-test of the same index sees a certain cell and
advances, which is the combined step taken here; if the assigned value is
itself the default value the source re-determines the same cell forever,
returned here as none (divergence). -/
def is_solved_go (g : SudokuGrid) :
    List (Nat × Nat) → Option (Except UnsolvableGridError (Bool × SudokuGrid))
  | [] => some (.ok (true, g))
  | (row, column) :: rest =>
    if (g.cell row column).is_value_certain then
      is_solved_go g rest
    else
      match SudokuCell.can_value_be_determined (g.cell row column) with
      | .error e => some (.error e)
      | .ok (true, c) =>
        if c.is_value_certain then is_solved_go (g.set_cell row column c) rest
        else none
      | .ok (false, _) => some (.ok (false, g))

/-- The method is_solved: scans all positions in row-major order, returning
whether every cell is (or just became) certain; it can mutate the grid and
can raise through can_value_be_determined. -/
def is_solved (g : SudokuGrid) :
    Option (Except UnsolvableGridError (Bool × SudokuGrid)) :=
  is_solved_go g (scan_order g)

/-- One eliminate_conflicting_values call of the propagation pass, aimed at
the (uncertain) cell at the given position with the given certain
comparison cell: the target cell is updated in the grid and the boolean is
added (as 0 or 1, as Python adds a bool to an int) to the running count of
newly determined cells. -/
def elim_target (g : SudokuGrid) (comparison : SudokuCell) (row column : Nat)
    (count : Nat) : Except UnsolvableGridError (SudokuGrid × Nat) :=
  match SudokuCell.eliminate_conflicting_values (g.cell row column) comparison with
  | .error e => .error e
  | .ok (deduced_new_cell, target, _) =>
    .ok (g.set_cell row column target, count + (if deduced_new_cell then 1 else 0))

/-- One step of the k-loop of the propagation pass: first the cell at
(row, k) of the shared row, then the cell at (k, column) of the shared
column, each updated when it differs in position from the propagating cell
and is uncertain. -/
def row_col_elim_step (comparison : SudokuCell) (row column : Nat)
    (acc : SudokuGrid × Nat) (k : Nat) :
    Except UnsolvableGridError (SudokuGrid × Nat) :=
  match (if k ≠ column && ! (acc.1.cell row k).is_value_certain then
      elim_target acc.1 comparison row k acc.2
    else Except.ok acc) with
  | .error e => .error e
  | .ok s =>
    if k ≠ row && ! (s.1.cell k column).is_value_certain then
      elim_target s.1 comparison k column s.2
    else .ok s

/-- One step of the loop over the cells of the shared square: the identity
test square_cells[i] != self._grid[row][column] of the source is the
position test here, the cells of the square being aliases of the grid's. -/
def square_elim_step (comparison : SudokuCell) (row column : Nat)
    (acc : SudokuGrid × Nat) (pos : Nat × Nat) :
    Except UnsolvableGridError (SudokuGrid × Nat) :=
  if pos ≠ (row, column) && ! (acc.1.cell pos.1 pos.2).is_value_certain then
    elim_target acc.1 comparison pos.1 pos.2 acc.2
  else .ok acc

/-- The body of the propagation pass for one certain, not yet used cell at
(row, column): the k-loop over the shared row and the shared column, then
the loop over the cells of the shared square.  The comparison cell is read
once, as in the source; its object is never mutated by these calls. -/
def propagate_from_cell (g0 : SudokuGrid) (row column : Nat) :
    Except UnsolvableGridError (SudokuGrid × Nat) :=
  let comparison := g0.cell row column
  let square_code := get_square_code row column
  match (List.range g0.grid.length).foldlM
      (row_col_elim_step comparison row column) (g0, 0) with
  | .error e => .error e
  | .ok rc =>
    (square_indices square_code).foldlM
      (square_elim_step comparison row column) rc

/-- The first half of one iteration of solve: the row-major scan over the
whole grid, propagating every cell that is certain and not yet marked in
used_cell, marking it used afterwards.  The certainty and used tests read
the current state, so cells determined earlier in the same pass are
propagated by it too. -/
def propagation_pass (g0 : SudokuGrid) :
    Except UnsolvableGridError (SudokuGrid × Nat) :=
  (List.range g0.grid.length).foldlM (fun acc row =>
    (List.range g0.grid.length).foldlM (fun (acc : SudokuGrid × Nat) column =>
      if (acc.1.cell row column).is_value_certain && ! acc.1.used row column then
        match propagate_from_cell acc.1 row column with
        | .error e => .error e
        | .ok s => .ok ((s.1.set_used row column true), acc.2 + s.2)
      else
        .ok acc) acc) (g0, 0)

/-- The list of values of range(1, 10). -/
def values_one_to_nine : List Int := (List.range 9).map (fun x => (x : Int) + 1)

/-- The certain_values list of the hidden-single pass: the values of
range(1, 10) that occur among the values of the given square's cells. -/
def certain_values (square_cells : List SudokuCell) : List Int :=
  values_one_to_nine.filter (fun x =>
    (square_cells.map SudokuCell.get_value).contains x)

/-- The values_to_check list of the hidden-single pass: the values of
range(1, 10) not in certain_values. -/
def values_to_check (square_cells : List SudokuCell) : List Int :=
  values_one_to_nine.filter (fun i => ! (certain_values square_cells).contains i)

/-- The while-loop of the hidden-single pass that collects the cells of a
square still listing the value as possible, stopping as soon as two are
found.  Cells are represented by their positions (the source collects the
aliased objects); the loop advances through the remaining positions, so the
index cursor of the source is the structural recursion here. -/
def collect_possible_cells (g : SudokuGrid) (value : Int) :
    List (Nat × Nat) → List (Nat × Nat) → List (Nat × Nat)
  | [], possible_cells => possible_cells
  | pos :: rest, possible_cells =>
    if possible_cells.length < 2 then
      if (g.cell pos.1 pos.2).is_value_possible value then
        collect_possible_cells g value rest (possible_cells ++ [pos])
      else
        collect_possible_cells g value rest possible_cells
    else
      possible_cells

/-- The body of the hidden-single pass for one square and one value of
values_to_check: with exactly one possible holder cell that cell's value is
set (set_value, not touching its candidates) and the count incremented;
with none the UnsolvableGridError is raised; with two or more nothing
happens. -/
def hidden_single_value (g : SudokuGrid) (square_positions : List (Nat × Nat))
    (value : Int) (count : Nat) : Except UnsolvableGridError (SudokuGrid × Nat) :=
  let possible_cells := collect_possible_cells g value square_positions []
  if possible_cells.length == 1 then
    let pos := possible_cells.getD 0 (0, 0)
    .ok (g.set_cell pos.1 pos.2 ((g.cell pos.1 pos.2).set_value value), count + 1)
  else if possible_cells.length == 0 then
    .error { msg := "This grid cannot be solved!" }
  else
    .ok (g, count)

/-- The hidden-single pass for one square: square_cells, certain_values and
values_to_check are computed once from the state at the start of the
square, then every value of values_to_check is processed against the
current state. -/
def hidden_single_square (g : SudokuGrid) (square_code : Nat) (count : Nat) :
    Except UnsolvableGridError (SudokuGrid × Nat) :=
  let square_cells := get_square_cells g square_code
  (values_to_check square_cells).foldlM
    (fun (acc : SudokuGrid × Nat) value =>
      hidden_single_value acc.1 (square_indices square_code) value acc.2)
    (g, count)

/-- The second half of one iteration of solve: the hidden-single pass over
the nine squares. -/
def hidden_single_pass (g : SudokuGrid) (count : Nat) :
    Except UnsolvableGridError (SudokuGrid × Nat) :=
  (List.range 9).foldlM (fun (acc : SudokuGrid × Nat) square_code =>
    hidden_single_square acc.1 square_code acc.2) (g, count)

/-- One iteration of the while-loop of solve: number_new_determined is
reset to zero, the propagation pass runs, then the hidden-single pass. -/
def solve_iteration (g : SudokuGrid) :
    Except UnsolvableGridError (SudokuGrid × Nat) :=
  match propagation_pass g with
  | .error e => .error e
  | .ok s => hidden_single_pass s.1 s.2

/-- The while-loop of solve, with fuel bounding the number of iterations
still allowed.  The loop condition (number_new_determined != 0) and not
self.is_solved() short-circuits, so is_solved only runs when the count is
nonzero; on exit the source returns a fresh self.is_solved() call.  A none
result means the loop was still running when the fuel ran out (or an
is_solved call diverged). -/
def solve_loop : Nat → SudokuGrid → Int →
    Option (Except UnsolvableGridError (Bool × SudokuGrid))
  | 0, _, _ => none
  | fuel + 1, g, number_new_determined =>
    if number_new_determined == 0 then
      is_solved g
    else
      match is_solved g with
      | none => none
      | some (.error e) => some (.error e)
      | some (.ok (true, g1)) => is_solved g1
      | some (.ok (false, g1)) =>
        match solve_iteration g1 with
        | .error e => some (.error e)
        | .ok (g2, n2) => solve_loop fuel g2 (Int.ofNat n2)

/-- The method solve: the fixed-point loop started with
number_new_determined = -1, given an explicit iteration budget.  A some
result is the value the source's solve() returns (or the error it raises);
none means the source has not terminated within that budget. -/
def solve (g : SudokuGrid) (fuel : Nat) :
    Option (Except UnsolvableGridError (Bool × SudokuGrid)) :=
  solve_loop fuel g (-1)

/-- The method set_value of the grid: sets the value of one cell. -/
def set_value (g : SudokuGrid) (row col : Nat) (value : Int) : SudokuGrid :=
  g.set_cell row col ((g.cell row col).set_value value)

/-- The method clone: a fresh grid built by the constructor from the same
unknown-cell symbol, whose cells are then replaced by clones of this
grid's cells (each re-seeded from its value only). -/
def clone (g : SudokuGrid) : SudokuGrid :=
  (List.range g.grid.length).foldl (fun cloned i =>
    (List.range (g.grid.getD i []).length).foldl (fun cloned j =>
      cloned.set_cell i j ((g.cell i j).clone)) cloned)
    (SudokuGrid.init g.custom_unknown_cell_symbol)

end SudokuGrid

/-- Decidable equality of Except results, for evaluating the embedded
program on concrete inputs. -/
instance {ε α : Type} [DecidableEq ε] [DecidableEq α] : DecidableEq (Except ε α)
  | .error a, .error b =>
    if h : a = b then .isTrue (by rw [h]) else .isFalse (by simp [h])
  | .error _, .ok _ => .isFalse (by simp)
  | .ok _, .error _ => .isFalse (by simp)
  | .ok a, .ok b =>
    if h : a = b then .isTrue (by rw [h]) else .isFalse (by simp [h])

/-- Whether a computation of the embedded program raised
UnsolvableGridError. -/
def is_error : Except UnsolvableGridError α → Bool
  | .error _ => true
  | .ok _ => false

/-- The shape every grid produced by the SudokuGrid constructor has: nine
rows of nine cells. -/
def grid_shape (g : SudokuGrid) : Prop :=
  g.grid.length = 9 ∧ ∀ row ∈ g.grid, row.length = 9

instance (g : SudokuGrid) : Decidable (grid_shape g) := by
  unfold grid_shape
  exact instDecidableAnd

/-- A 9x9 matrix all of whose entries are the digit 5: an inconsistent
input that create_from_matrix accepts unchecked. -/
def all_fives_matrix : List (List Int) :=
  (List.range 9).map (fun _ => (List.range 9).map (fun _ => (5 : Int)))

/-- The all-unknown 9x9 input matrix. -/
def all_zeros_matrix : List (List Int) :=
  (List.range 9).map (fun _ => (List.range 9).map (fun _ => (0 : Int)))

/-- A matrix with a single given digit, at position (0, 0). -/
def one_five_matrix : List (List Int) :=
  [[5, 0, 0, 0, 0, 0, 0, 0, 0],
   [0, 0, 0, 0, 0, 0, 0, 0, 0],
   [0, 0, 0, 0, 0, 0, 0, 0, 0],
   [0, 0, 0, 0, 0, 0, 0, 0, 0],
   [0, 0, 0, 0, 0, 0, 0, 0, 0],
   [0, 0, 0, 0, 0, 0, 0, 0, 0],
   [0, 0, 0, 0, 0, 0, 0, 0, 0],
   [0, 0, 0, 0, 0, 0, 0, 0, 0],
   [0, 0, 0, 0, 0, 0, 0, 0, 0]]

/-- An input matrix on which solve never terminates: the three 7 clues
eliminate 7 from every unknown cell of the two top-left boxes, so the
certain cells at (0,0) and (0,3) - whose candidate lists stay stale and
full - become the unique counted holders of 7 in their boxes and the
hidden-single pass overwrites their values for ever. -/
def flip_matrix : List (List Int) :=
  [[5, 0, 0, 1, 0, 0, 0, 0, 7],
   [0, 0, 0, 0, 0, 0, 0, 0, 7],
   [0, 0, 0, 0, 0, 0, 0, 0, 7],
   [0, 0, 0, 0, 0, 0, 0, 0, 0],
   [0, 0, 0, 0, 0, 0, 0, 0, 0],
   [0, 0, 0, 0, 0, 0, 0, 0, 0],
   [0, 0, 0, 0, 0, 0, 0, 0, 0],
   [0, 0, 0, 0, 0, 0, 0, 0, 0],
   [0, 0, 0, 0, 0, 0, 0, 0, 0]]

/-- The grid built from flip_matrix. -/
def flip_grid : SudokuGrid := SudokuGrid.create_from_matrix flip_matrix

/-- The state of flip_grid after one iteration of the solve loop (the
propagation of the five clues followed by the hidden-single overwrites of
the cells at (0,0) and (0,3) to the value 7). -/
def flip_state_a : SudokuGrid :=
  ⟨[[⟨7, [1, 2, 3, 4, 5, 6, 7, 8, 9], []⟩,
    ⟨0, [2, 3, 4, 6, 8, 9], [1, 5, 7]⟩,
    ⟨0, [2, 3, 4, 6, 8, 9], [1, 5, 7]⟩,
    ⟨7, [1, 2, 3, 4, 5, 6, 7, 8, 9], []⟩,
    ⟨0, [2, 3, 4, 6, 8, 9], [1, 5, 7]⟩,
    ⟨0, [2, 3, 4, 6, 8, 9], [1, 5, 7]⟩,
    ⟨0, [2, 3, 4, 6, 8, 9], [1, 5, 7]⟩,
    ⟨0, [2, 3, 4, 6, 8, 9], [1, 5, 7]⟩,
    ⟨7, [1, 2, 3, 4, 5, 6, 7, 8, 9], []⟩],
   [⟨0, [1, 2, 3, 4, 6, 8, 9], [5, 7]⟩,
    ⟨0, [1, 2, 3, 4, 6, 8, 9], [5, 7]⟩,
    ⟨0, [1, 2, 3, 4, 6, 8, 9], [5, 7]⟩,
    ⟨0, [2, 3, 4, 5, 6, 8, 9], [1, 7]⟩,
    ⟨0, [2, 3, 4, 5, 6, 8, 9], [1, 7]⟩,
    ⟨0, [2, 3, 4, 5, 6, 8, 9], [1, 7]⟩,
    ⟨0, [1, 2, 3, 4, 5, 6, 8, 9], [7]⟩,
    ⟨0, [1, 2, 3, 4, 5, 6, 8, 9], [7]⟩,
    ⟨7, [1, 2, 3, 4, 5, 6, 7, 8, 9], []⟩],
   [⟨0, [1, 2, 3, 4, 6, 8, 9], [5, 7]⟩,
    ⟨0, [1, 2, 3, 4, 6, 8, 9], [5, 7]⟩,
    ⟨0, [1, 2, 3, 4, 6, 8, 9], [5, 7]⟩,
    ⟨0, [2, 3, 4, 5, 6, 8, 9], [1, 7]⟩,
    ⟨0, [2, 3, 4, 5, 6, 8, 9], [1, 7]⟩,
    ⟨0, [2, 3, 4, 5, 6, 8, 9], [1, 7]⟩,
    ⟨0, [1, 2, 3, 4, 5, 6, 8, 9], [7]⟩,
    ⟨0, [1, 2, 3, 4, 5, 6, 8, 9], [7]⟩,
    ⟨7, [1, 2, 3, 4, 5, 6, 7, 8, 9], []⟩],
   [⟨0, [1, 2, 3, 4, 6, 7, 8, 9], [5]⟩,
    ⟨0, [1, 2, 3, 4, 5, 6, 7, 8, 9], []⟩,
    ⟨0, [1, 2, 3, 4, 5, 6, 7, 8, 9], []⟩,
    ⟨0, [2, 3, 4, 5, 6, 7, 8, 9], [1]⟩,
    ⟨0, [1, 2, 3, 4, 5, 6, 7, 8, 9], []⟩,
    ⟨0, [1, 2, 3, 4, 5, 6, 7, 8, 9], []⟩,
    ⟨0, [1, 2, 3, 4, 5, 6, 7, 8, 9], []⟩,
    ⟨0, [1, 2, 3, 4, 5, 6, 7, 8, 9], []⟩,
    ⟨0, [1, 2, 3, 4, 5, 6, 8, 9], [7]⟩],
   [⟨0, [1, 2, 3, 4, 6, 7, 8, 9], [5]⟩,
    ⟨0, [1, 2, 3, 4, 5, 6, 7, 8, 9], []⟩,
    ⟨0, [1, 2, 3, 4, 5, 6, 7, 8, 9], []⟩,
    ⟨0, [2, 3, 4, 5, 6, 7, 8, 9], [1]⟩,
    ⟨0, [1, 2, 3, 4, 5, 6, 7, 8, 9], []⟩,
    ⟨0, [1, 2, 3, 4, 5, 6, 7, 8, 9], []⟩,
    ⟨0, [1, 2, 3, 4, 5, 6, 7, 8, 9], []⟩,
    ⟨0, [1, 2, 3, 4, 5, 6, 7, 8, 9], []⟩,
    ⟨0, [1, 2, 3, 4, 5, 6, 8, 9], [7]⟩],
   [⟨0, [1, 2, 3, 4, 6, 7, 8, 9], [5]⟩,
    ⟨0, [1, 2, 3, 4, 5, 6, 7, 8, 9], []⟩,
    ⟨0, [1, 2, 3, 4, 5, 6, 7, 8, 9], []⟩,
    ⟨0, [2, 3, 4, 5, 6, 7, 8, 9], [1]⟩,
    ⟨0, [1, 2, 3, 4, 5, 6, 7, 8, 9], []⟩,
    ⟨0, [1, 2, 3, 4, 5, 6, 7, 8, 9], []⟩,
    ⟨0, [1, 2, 3, 4, 5, 6, 7, 8, 9], []⟩,
    ⟨0, [1, 2, 3, 4, 5, 6, 7, 8, 9], []⟩,
    ⟨0, [1, 2, 3, 4, 5, 6, 8, 9], [7]⟩],
   [⟨0, [1, 2, 3, 4, 6, 7, 8, 9], [5]⟩,
    ⟨0, [1, 2, 3, 4, 5, 6, 7, 8, 9], []⟩,
    ⟨0, [1, 2, 3, 4, 5, 6, 7, 8, 9], []⟩,
    ⟨0, [2, 3, 4, 5, 6, 7, 8, 9], [1]⟩,
    ⟨0, [1, 2, 3, 4, 5, 6, 7, 8, 9], []⟩,
    ⟨0, [1, 2, 3, 4, 5, 6, 7, 8, 9], []⟩,
    ⟨0, [1, 2, 3, 4, 5, 6, 7, 8, 9], []⟩,
    ⟨0, [1, 2, 3, 4, 5, 6, 7, 8, 9], []⟩,
    ⟨0, [1, 2, 3, 4, 5, 6, 8, 9], [7]⟩],
   [⟨0, [1, 2, 3, 4, 6, 7, 8, 9], [5]⟩,
    ⟨0, [1, 2, 3, 4, 5, 6, 7, 8, 9], []⟩,
    ⟨0, [1, 2, 3, 4, 5, 6, 7, 8, 9], []⟩,
    ⟨0, [2, 3, 4, 5, 6, 7, 8, 9], [1]⟩,
    ⟨0, [1, 2, 3, 4, 5, 6, 7, 8, 9], []⟩,
    ⟨0, [1, 2, 3, 4, 5, 6, 7, 8, 9], []⟩,
    ⟨0, [1, 2, 3, 4, 5, 6, 7, 8, 9], []⟩,
    ⟨0, [1, 2, 3, 4, 5, 6, 7, 8, 9], []⟩,
    ⟨0, [1, 2, 3, 4, 5, 6, 8, 9], [7]⟩],
   [⟨0, [1, 2, 3, 4, 6, 7, 8, 9], [5]⟩,
    ⟨0, [1, 2, 3, 4, 5, 6, 7, 8, 9], []⟩,
    ⟨0, [1, 2, 3, 4, 5, 6, 7, 8, 9], []⟩,
    ⟨0, [2, 3, 4, 5, 6, 7, 8, 9], [1]⟩,
    ⟨0, [1, 2, 3, 4, 5, 6, 7, 8, 9], []⟩,
    ⟨0, [1, 2, 3, 4, 5, 6, 7, 8, 9], []⟩,
    ⟨0, [1, 2, 3, 4, 5, 6, 7, 8, 9], []⟩,
    ⟨0, [1, 2, 3, 4, 5, 6, 7, 8, 9], []⟩,
    ⟨0, [1, 2, 3, 4, 5, 6, 8, 9], [7]⟩]],
  [[true, false, false, true, false, false, false, false, true],
 [false, false, false, false, false, false, false, false, true],
 [false, false, false, false, false, false, false, false, true],
 [false, false, false, false, false, false, false, false, false],
 [false, false, false, false, false, false, false, false, false],
 [false, false, false, false, false, false, false, false, false],
 [false, false, false, false, false, false, false, false, false],
 [false, false, false, false, false, false, false, false, false],
 [false, false, false, false, false, false, false, false, false]],
  ""⟩

/-- The state of flip_grid after two iterations of the solve loop: equal to
flip_state_a except that the hidden-single pass has written the values 5
and 1 back into the cells at (0,0) and (0,3). -/
def flip_state_b : SudokuGrid :=
  ⟨[[⟨5, [1, 2, 3, 4, 5, 6, 7, 8, 9], []⟩,
    ⟨0, [2, 3, 4, 6, 8, 9], [1, 5, 7]⟩,
    ⟨0, [2, 3, 4, 6, 8, 9], [1, 5, 7]⟩,
    ⟨1, [1, 2, 3, 4, 5, 6, 7, 8, 9], []⟩,
    ⟨0, [2, 3, 4, 6, 8, 9], [1, 5, 7]⟩,
    ⟨0, [2, 3, 4, 6, 8, 9], [1, 5, 7]⟩,
    ⟨0, [2, 3, 4, 6, 8, 9], [1, 5, 7]⟩,
    ⟨0, [2, 3, 4, 6, 8, 9], [1, 5, 7]⟩,
    ⟨7, [1, 2, 3, 4, 5, 6, 7, 8, 9], []⟩],
   [⟨0, [1, 2, 3, 4, 6, 8, 9], [5, 7]⟩,
    ⟨0, [1, 2, 3, 4, 6, 8, 9], [5, 7]⟩,
    ⟨0, [1, 2, 3, 4, 6, 8, 9], [5, 7]⟩,
    ⟨0, [2, 3, 4, 5, 6, 8, 9], [1, 7]⟩,
    ⟨0, [2, 3, 4, 5, 6, 8, 9], [1, 7]⟩,
    ⟨0, [2, 3, 4, 5, 6, 8, 9], [1, 7]⟩,
    ⟨0, [1, 2, 3, 4, 5, 6, 8, 9], [7]⟩,
    ⟨0, [1, 2, 3, 4, 5, 6, 8, 9], [7]⟩,
    ⟨7, [1, 2, 3, 4, 5, 6, 7, 8, 9], []⟩],
   [⟨0, [1, 2, 3, 4, 6, 8, 9], [5, 7]⟩,
    ⟨0, [1, 2, 3, 4, 6, 8, 9], [5, 7]⟩,
    ⟨0, [1, 2, 3, 4, 6, 8, 9], [5, 7]⟩,
    ⟨0, [2, 3, 4, 5, 6, 8, 9], [1, 7]⟩,
    ⟨0, [2, 3, 4, 5, 6, 8, 9], [1, 7]⟩,
    ⟨0, [2, 3, 4, 5, 6, 8, 9], [1, 7]⟩,
    ⟨0, [1, 2, 3, 4, 5, 6, 8, 9], [7]⟩,
    ⟨0, [1, 2, 3, 4, 5, 6, 8, 9], [7]⟩,
    ⟨7, [1, 2, 3, 4, 5, 6, 7, 8, 9], []⟩],
   [⟨0, [1, 2, 3, 4, 6, 7, 8, 9], [5]⟩,
    ⟨0, [1, 2, 3, 4, 5, 6, 7, 8, 9], []⟩,
    ⟨0, [1, 2, 3, 4, 5, 6, 7, 8, 9], []⟩,
    ⟨0, [2, 3, 4, 5, 6, 7, 8, 9], [1]⟩,
    ⟨0, [1, 2, 3, 4, 5, 6, 7, 8, 9], []⟩,
    ⟨0, [1, 2, 3, 4, 5, 6, 7, 8, 9], []⟩,
    ⟨0, [1, 2, 3, 4, 5, 6, 7, 8, 9], []⟩,
    ⟨0, [1, 2, 3, 4, 5, 6, 7, 8, 9], []⟩,
    ⟨0, [1, 2, 3, 4, 5, 6, 8, 9], [7]⟩],
   [⟨0, [1, 2, 3, 4, 6, 7, 8, 9], [5]⟩,
    ⟨0, [1, 2, 3, 4, 5, 6, 7, 8, 9], []⟩,
    ⟨0, [1, 2, 3, 4, 5, 6, 7, 8, 9], []⟩,
    ⟨0, [2, 3, 4, 5, 6, 7, 8, 9], [1]⟩,
    ⟨0, [1, 2, 3, 4, 5, 6, 7, 8, 9], []⟩,
    ⟨0, [1, 2, 3, 4, 5, 6, 7, 8, 9], []⟩,
    ⟨0, [1, 2, 3, 4, 5, 6, 7, 8, 9], []⟩,
    ⟨0, [1, 2, 3, 4, 5, 6, 7, 8, 9], []⟩,
    ⟨0, [1, 2, 3, 4, 5, 6, 8, 9], [7]⟩],
   [⟨0, [1, 2, 3, 4, 6, 7, 8, 9], [5]⟩,
    ⟨0, [1, 2, 3, 4, 5, 6, 7, 8, 9], []⟩,
    ⟨0, [1, 2, 3, 4, 5, 6, 7, 8, 9], []⟩,
    ⟨0, [2, 3, 4, 5, 6, 7, 8, 9], [1]⟩,
    ⟨0, [1, 2, 3, 4, 5, 6, 7, 8, 9], []⟩,
    ⟨0, [1, 2, 3, 4, 5, 6, 7, 8, 9], []⟩,
    ⟨0, [1, 2, 3, 4, 5, 6, 7, 8, 9], []⟩,
    ⟨0, [1, 2, 3, 4, 5, 6, 7, 8, 9], []⟩,
    ⟨0, [1, 2, 3, 4, 5, 6, 8, 9], [7]⟩],
   [⟨0, [1, 2, 3, 4, 6, 7, 8, 9], [5]⟩,
    ⟨0, [1, 2, 3, 4, 5, 6, 7, 8, 9], []⟩,
    ⟨0, [1, 2, 3, 4, 5, 6, 7, 8, 9], []⟩,
    ⟨0, [2, 3, 4, 5, 6, 7, 8, 9], [1]⟩,
    ⟨0, [1, 2, 3, 4, 5, 6, 7, 8, 9], []⟩,
    ⟨0, [1, 2, 3, 4, 5, 6, 7, 8, 9], []⟩,
    ⟨0, [1, 2, 3, 4, 5, 6, 7, 8, 9], []⟩,
    ⟨0, [1, 2, 3, 4, 5, 6, 7, 8, 9], []⟩,
    ⟨0, [1, 2, 3, 4, 5, 6, 8, 9], [7]⟩],
   [⟨0, [1, 2, 3, 4, 6, 7, 8, 9], [5]⟩,
    ⟨0, [1, 2, 3, 4, 5, 6, 7, 8, 9], []⟩,
    ⟨0, [1, 2, 3, 4, 5, 6, 7, 8, 9], []⟩,
    ⟨0, [2, 3, 4, 5, 6, 7, 8, 9], [1]⟩,
    ⟨0, [1, 2, 3, 4, 5, 6, 7, 8, 9], []⟩,
    ⟨0, [1, 2, 3, 4, 5, 6, 7, 8, 9], []⟩,
    ⟨0, [1, 2, 3, 4, 5, 6, 7, 8, 9], []⟩,
    ⟨0, [1, 2, 3, 4, 5, 6, 7, 8, 9], []⟩,
    ⟨0, [1, 2, 3, 4, 5, 6, 8, 9], [7]⟩],
   [⟨0, [1, 2, 3, 4, 6, 7, 8, 9], [5]⟩,
    ⟨0, [1, 2, 3, 4, 5, 6, 7, 8, 9], []⟩,
    ⟨0, [1, 2, 3, 4, 5, 6, 7, 8, 9], []⟩,
    ⟨0, [2, 3, 4, 5, 6, 7, 8, 9], [1]⟩,
    ⟨0, [1, 2, 3, 4, 5, 6, 7, 8, 9], []⟩,
    ⟨0, [1, 2, 3, 4, 5, 6, 7, 8, 9], []⟩,
    ⟨0, [1, 2, 3, 4, 5, 6, 7, 8, 9], []⟩,
    ⟨0, [1, 2, 3, 4, 5, 6, 7, 8, 9], []⟩,
    ⟨0, [1, 2, 3, 4, 5, 6, 8, 9], [7]⟩]],
  [[true, false, false, true, false, false, false, false, true],
 [false, false, false, false, false, false, false, false, true],
 [false, false, false, false, false, false, false, false, true],
 [false, false, false, false, false, false, false, false, false],
 [false, false, false, false, false, false, false, false, false],
 [false, false, false, false, false, false, false, false, false],
 [false, false, false, false, false, false, false, false, false],
 [false, false, false, false, false, false, false, false, false],
 [false, false, false, false, false, false, false, false, false]],
  ""⟩

/-! Helper lemmas about list-of-list access and update. -/

theorem getD_set_self (l : List α) (i : Nat) (x d : α) (h : i < l.length) :
    (l.set i x).getD i d = x := by
  rw [List.getD_eq_getElem?_getD, List.getElem?_set]
  simp [h]

theorem getD_set_ne (l : List α) (i j : Nat) (x d : α) (h : i ≠ j) :
    (l.set i x).getD j d = l.getD j d := by
  rw [List.getD_eq_getElem?_getD, List.getElem?_set, if_neg h,
    ← List.getD_eq_getElem?_getD]

theorem length_mset (m : List (List α)) (r c : Nat) (x : α) :
    (mset m r c x).length = m.length :=
  List.length_set ..

theorem mset_row_length (m : List (List α)) (r c : Nat) (x : α) (r1 : Nat) :
    ((mset m r c x).getD r1 []).length = (m.getD r1 []).length := by
  unfold mset
  by_cases h : r = r1
  · subst h
    by_cases hr : r < m.length
    · rw [getD_set_self _ _ _ _ hr]
      exact List.length_set ..
    · rw [List.set_eq_of_length_le (le_of_not_lt hr)]
  · rw [getD_set_ne _ _ _ _ _ h]

theorem mget_mset_eq (d : α) (m : List (List α)) (r c : Nat) (x : α)
    (hr : r < m.length) (hc : c < (m.getD r []).length) :
    mget d (mset m r c x) r c = x := by
  unfold mget mset
  rw [getD_set_self _ _ _ _ hr, getD_set_self _ _ _ _ hc]

theorem mget_mset_ne (d : α) (m : List (List α)) (r c r1 c1 : Nat) (x : α)
    (h : ¬(r1 = r ∧ c1 = c)) :
    mget d (mset m r c x) r1 c1 = mget d m r1 c1 := by
  unfold mget mset
  by_cases hr : r = r1
  · subst hr
    have hc : c ≠ c1 := fun hc => h ⟨rfl, hc.symm⟩
    by_cases hlt : r < m.length
    · rw [getD_set_self _ _ _ _ hlt, getD_set_ne _ _ _ _ _ hc]
    · rw [List.set_eq_of_length_le (le_of_not_lt hlt)]
  · rw [getD_set_ne _ _ _ _ _ hr]

theorem mget_mset_cases (d : α) (m : List (List α)) (r c r1 c1 : Nat) (x : α) :
    mget d (mset m r c x) r1 c1 = mget d m r1 c1 ∨
      (r1 = r ∧ c1 = c ∧ mget d (mset m r c x) r1 c1 = x) := by
  by_cases h : r1 = r ∧ c1 = c
  · obtain ⟨h1, h2⟩ := h
    subst h1
    subst h2
    by_cases hr : r1 < m.length
    · by_cases hc : c1 < (m.getD r1 []).length
      · exact Or.inr ⟨rfl, rfl, mget_mset_eq _ _ _ _ _ hr hc⟩
      · have : (m.getD r1 []).set c1 x = m.getD r1 [] :=
          List.set_eq_of_length_le (le_of_not_lt hc)
        left
        unfold mget mset
        rw [this]
        by_cases hr2 : r1 < m.length
        · rw [getD_set_self _ _ _ _ hr2]
        · rw [List.set_eq_of_length_le (le_of_not_lt hr2)]
    · left
      unfold mget mset
      rw [List.set_eq_of_length_le (le_of_not_lt hr)]
  · exact Or.inl (mget_mset_ne _ _ _ _ _ _ _ h)

theorem cell_set_cell_cases (g : SudokuGrid) (r c r1 c1 : Nat) (x : SudokuCell) :
    (g.set_cell r c x).cell r1 c1 = g.cell r1 c1 ∨
      (r1 = r ∧ c1 = c ∧ (g.set_cell r c x).cell r1 c1 = x) :=
  mget_mset_cases _ _ _ _ _ _ _

theorem cell_set_cell_ne (g : SudokuGrid) (r c r1 c1 : Nat) (x : SudokuCell)
    (h : ¬(r1 = r ∧ c1 = c)) :
    (g.set_cell r c x).cell r1 c1 = g.cell r1 c1 :=
  mget_mset_ne _ _ _ _ _ _ _ h

theorem used_set_cell (g : SudokuGrid) (r c r1 c1 : Nat) (x : SudokuCell) :
    (g.set_cell r c x).used r1 c1 = g.used r1 c1 := rfl

theorem cell_set_used (g : SudokuGrid) (r c r1 c1 : Nat) (b : Bool) :
    (g.set_used r c b).cell r1 c1 = g.cell r1 c1 := rfl

theorem grid_set_used (g : SudokuGrid) (r c : Nat) (b : Bool) :
    (g.set_used r c b).grid = g.grid := rfl

/-- A test grid whose cells are all uncertain with the single candidate 1:
in its boxes no cell lists any digit other than 1 as possible. -/
def no_holder_grid : SudokuGrid :=
  ⟨(List.range 9).map (fun _ => (List.range 9).map (fun _ => ⟨0, [1], []⟩)),
   (List.range 9).map (fun _ => (List.range 9).map (fun _ => false)), ""⟩

/-- no_holder_grid with the corner cell widened to the candidates 1 and 2:
that cell is then the only holder of the digit 2 in box 0. -/
def one_holder_grid : SudokuGrid := no_holder_grid.set_cell 0 0 ⟨0, [1, 2], []⟩

/-- The inner (column) loop shared by create_from_matrix, get_as_matrix and
clone: each entry of columns j0 .. j0+jn-1 of row i is replaced by a
function of its old value. -/
def row_pass (d : α) (i : Nat) (f : Nat → α → α) (j0 jn : Nat)
    (m : List (List α)) : List (List α) :=
  (List.range' j0 jn).foldl (fun m j => mset m i j (f j (mget d m i j))) m

/-- The outer (row) loop over row_pass, with a per-row column count J. -/
def grid_pass (d : α) (f : Nat → Nat → α → α) (J : Nat → Nat) (i0 ilen : Nat)
    (m : List (List α)) : List (List α) :=
  (List.range' i0 ilen).foldl (fun m i => row_pass d i (f i) 0 (J i) m) m

/-- Helper: get_square_cells reads the grid exactly at square_indices. -/
theorem square_cells_eq_map (g : SudokuGrid) (code : Nat) :
    SudokuGrid.get_square_cells g code =
      (SudokuGrid.square_indices code).map (fun pos => g.cell pos.1 pos.2) := by
  simp [SudokuGrid.get_square_cells, SudokuGrid.square_indices, List.range']

/-- C9: get_square_code r c equals (r / 3) * 3 + c / 3 for r, c in 0..8;
every square's cell list has exactly 9 cells and is the grid read at
square_indices; the 81 positions are partitioned exactly once across the
nine squares, each position lying in its own square; and square 4 holds
exactly the positions with row and column in 3..5. -/
theorem square_mapping_correct :
    (∀ r, r < 9 → ∀ c, c < 9 →
      SudokuGrid.get_square_code r c = (r / 3) * 3 + c / 3) ∧
    (∀ g : SudokuGrid, ∀ code, code < 9 →
      (SudokuGrid.get_square_cells g code).length = 9 ∧
      SudokuGrid.get_square_cells g code =
        (SudokuGrid.square_indices code).map (fun pos => g.cell pos.1 pos.2)) ∧
    (∀ r, r < 9 → ∀ c, c < 9 →
      ((List.range 9).map
        (fun code => (SudokuGrid.square_indices code).count (r, c))).sum = 1 ∧
      (r, c) ∈ SudokuGrid.square_indices (SudokuGrid.get_square_code r c)) ∧
    (∀ r, r < 9 → ∀ c, c < 9 →
      ((r, c) ∈ SudokuGrid.square_indices 4 ↔ 3 ≤ r ∧ r ≤ 5 ∧ 3 ≤ c ∧ c ≤ 5)) := by
  refine ⟨by decide, ?_, by decide, by decide⟩
  intro g code hcode
  refine ⟨?_, square_cells_eq_map g code⟩
  simp [SudokuGrid.get_square_cells, List.range']

/-- Witness for C9 at the center position and the default grid. -/
theorem square_mapping_correct_witness :
    SudokuGrid.get_square_code 4 4 = (4 / 3) * 3 + 4 / 3 ∧
    (SudokuGrid.get_square_cells (SudokuGrid.init "") 4).length = 9 :=
  ⟨square_mapping_correct.1 4 (by decide) 4 (by decide),
   (square_mapping_correct.2.1 (SudokuGrid.init "") 4 (by decide)).1⟩

/-- C2 (amended): Invariant A holds where the code establishes it - a cell
constructed with a nonzero value has candidate list exactly that value, and
a collapse through can_value_be_determined leaves the candidate list equal
to the assigned value.  Plain set_value does not restore the invariant, so
it fails after create_from_matrix and after the hidden-single assignment
(see the counterexample). -/
theorem invariant_a_constructor_and_collapse :
    (∀ v : Int, v ≠ 0 →
      (SudokuCell.init v).value = v ∧ (SudokuCell.init v).possible = [v]) ∧
    (∀ c c1 : SudokuCell,
      SudokuCell.can_value_be_determined c = .ok (true, c1) →
      c1.possible = [c1.value]) := by
  constructor
  · intro v hv
    simp [SudokuCell.init, SudokuCell.is_default_value, SudokuCell.get_default_value,
      SudokuCell.DEFAULT_VALUE, hv]
  · intro c c1 h
    unfold SudokuCell.can_value_be_determined at h
    by_cases hcert : c.is_value_certain
    · simp [hcert] at h
    · rw [if_neg hcert] at h
      by_cases hlen : c.possible.length == 1
      · rw [if_pos hlen] at h
        obtain ⟨a, ha⟩ := List.length_eq_one.mp (by simpa using hlen)
        simp only [Except.ok.injEq, Prod.mk.injEq, true_and] at h
        subst h
        simp [SudokuCell.set_value, ha]
      · rw [if_neg hlen] at h
        by_cases hz : c.possible.length == 0
        · simp [hz] at h
        · simp [hz] at h

/-- Witness for C2 at the constructor value 7. -/
theorem invariant_a_constructor_and_collapse_witness :
    (SudokuCell.init 7).value = 7 ∧ (SudokuCell.init 7).possible = [7] :=
  invariant_a_constructor_and_collapse.1 7 (by decide)

/-- C2 counterexample: create_from_matrix assigns values through set_value,
which leaves candidates untouched, so cell (0,0) of the grid built from
one_five_matrix has value 5 while its candidate list is not the singleton
5, violating Invariant A as claimed. -/
theorem invariant_a_fails_after_create_from_matrix :
    ((SudokuGrid.create_from_matrix one_five_matrix).cell 0 0).value = 5 ∧
    ((SudokuGrid.create_from_matrix one_five_matrix).cell 0 0).possible ≠ [5] := by
  decide

theorem can_det_ok_possible (c : SudokuCell) (b : Bool) (c1 : SudokuCell)
    (h : SudokuCell.can_value_be_determined c = .ok (b, c1)) :
    c1.possible = c.possible := by
  unfold SudokuCell.can_value_be_determined at h
  split_ifs at h <;> simp_all [SudokuCell.set_value]
  rw [← h.2]


theorem svti_possible_subset (c : SudokuCell) (v : Int) :
    (c.set_value_to_impossible v).possible ⊆ c.possible := by
  unfold SudokuCell.set_value_to_impossible
  split_ifs
  · exact List.erase_subset _ _
  · exact fun x hx => hx

theorem svti_value (c : SudokuCell) (v : Int) :
    (c.set_value_to_impossible v).value = c.value := by
  unfold SudokuCell.set_value_to_impossible
  split_ifs <;> rfl

theorem svti_certain (c : SudokuCell) (v : Int) :
    (c.set_value_to_impossible v).is_value_certain = c.is_value_certain := by
  simp [SudokuCell.is_value_certain, SudokuCell.get_value, svti_value]

/-- C7: an eliminate_conflicting_values call only ever removes candidates -
each cell's candidate list after the call is a subset of its old one - and
the value and candidates of a certain cell involved are left unchanged. -/
theorem eliminate_monotone (self other : SudokuCell) (b : Bool)
    (self1 other1 : SudokuCell)
    (h : SudokuCell.eliminate_conflicting_values self other = .ok (b, self1, other1)) :
    self1.possible ⊆ self.possible ∧ other1.possible ⊆ other.possible ∧
    (self.is_value_certain = true → self1 = self) ∧
    (other.is_value_certain = true → other1 = other) := by
  unfold SudokuCell.eliminate_conflicting_values at h
  by_cases h1 : self.is_value_certain
  · by_cases h2 : other.is_value_certain
    · simp only [h1, h2] at h
      simp at h
      obtain ⟨hb, hs, ho⟩ := h
      subst hs
      subst ho
      exact ⟨fun x hx => hx, fun x hx => hx, fun _ => rfl, fun _ => rfl⟩
    · simp only [h1, Bool.not_eq_true] at h2
      simp only [h1, h2, Bool.not_false, Bool.and_true, Bool.true_and, if_pos] at h
      cases hc : SudokuCell.can_value_be_determined
          (other.set_value_to_impossible self.get_value) with
      | error e => rw [hc] at h; cases h
      | ok p =>
        obtain ⟨b2, u⟩ := p
        rw [hc] at h
        simp at h
        obtain ⟨hb, hs, ho⟩ := h
        subst hs
        subst ho
        refine ⟨fun x hx => hx, ?_, fun _ => rfl, fun hcon => by rw [hcon] at h2; cases h2⟩
        rw [can_det_ok_possible _ _ _ hc]
        exact svti_possible_subset other self.get_value
  · by_cases h2 : other.is_value_certain
    · simp only [Bool.not_eq_true] at h1
      simp only [h1, h2, Bool.false_and, Bool.not_false, Bool.true_and, if_neg, if_pos] at h
      cases hc : SudokuCell.can_value_be_determined
          (self.set_value_to_impossible other.get_value) with
      | error e => rw [hc] at h; cases h
      | ok p =>
        obtain ⟨b2, u⟩ := p
        rw [hc] at h
        simp at h
        obtain ⟨hb, hs, ho⟩ := h
        subst hs
        subst ho
        refine ⟨?_, fun x hx => hx, (fun hcon => by rw [hcon] at h1; cases h1), fun _ => rfl⟩
        rw [can_det_ok_possible _ _ _ hc]
        exact svti_possible_subset self other.get_value
    · simp only [Bool.not_eq_true] at h1 h2
      simp only [h1, h2, Bool.false_and, Bool.and_false, if_neg] at h
      simp at h
      obtain ⟨hb, hs, ho⟩ := h
      subst hs
      subst ho
      exact ⟨fun x hx => hx, fun x hx => hx, fun _ => rfl, fun _ => rfl⟩

/-- Witness for C7: one concrete elimination of 5 from a fully open cell. -/
theorem eliminate_monotone_witness :
    SudokuCell.eliminate_conflicting_values (SudokuCell.init 0) (SudokuCell.init 5) =
      .ok (false, ⟨0, [1, 2, 3, 4, 6, 7, 8, 9], [5]⟩, SudokuCell.init 5) ∧
    (⟨0, [1, 2, 3, 4, 6, 7, 8, 9], [5]⟩ : SudokuCell).possible ⊆
      (SudokuCell.init 0).possible :=
  have h : SudokuCell.eliminate_conflicting_values (SudokuCell.init 0) (SudokuCell.init 5) =
      .ok (false, ⟨0, [1, 2, 3, 4, 6, 7, 8, 9], [5]⟩, SudokuCell.init 5) := by decide
  ⟨h, (eliminate_monotone _ _ _ _ _ h).1⟩

theorem svti_mem (c : SudokuCell) (v : Int) (hnd : c.possible.Nodup) (x : Int) :
    x ∈ (c.set_value_to_impossible v).possible ↔ x ∈ c.possible ∧ x ≠ v := by
  unfold SudokuCell.set_value_to_impossible
  split_ifs with h
  · show x ∈ c.possible.erase v ↔ _
    rw [hnd.mem_erase_iff]
    tauto
  · have h1 : v ∉ c.possible := by simpa using h
    show x ∈ c.possible ↔ _
    exact ⟨fun hx => ⟨hx, fun he => h1 (he ▸ hx)⟩, fun hx => hx.1⟩

theorem can_det_uncertain_len1 (c : SudokuCell) (h : c.is_value_certain = false)
    (hl : c.possible.length = 1) :
    SudokuCell.can_value_be_determined c = .ok (true, c.set_value (c.possible.getD 0 0)) := by
  unfold SudokuCell.can_value_be_determined
  rw [if_neg (by simp [h]), if_pos (by simp [hl])]

theorem can_det_uncertain_len_gt1 (c : SudokuCell) (h : c.is_value_certain = false)
    (hl : 1 < c.possible.length) :
    SudokuCell.can_value_be_determined c = .ok (false, c) := by
  unfold SudokuCell.can_value_be_determined
  rw [if_neg (by simp [h]), if_neg (by simp only [beq_iff_eq]; omega),
    if_neg (by simp only [beq_iff_eq]; omega)]

theorem eliminate_case_one_certain (self other : SudokuCell)
    (h1 : self.is_value_certain = true) (h2 : other.is_value_certain = false) :
    SudokuCell.eliminate_conflicting_values self other =
      match SudokuCell.can_value_be_determined
        (other.set_value_to_impossible self.get_value) with
      | .error e => .error e
      | .ok (b, u) => .ok (b, self, u) := by
  unfold SudokuCell.eliminate_conflicting_values
  simp only [h1, h2, Bool.not_false, Bool.and_self, if_pos]

/-- C5: when exactly one of the two cells is certain, the certain cell's
value is removed from the uncertain cell's candidates and the call returns
true exactly when a single candidate then remains, in which case the
uncertain cell's value is set to that digit; when both or neither are
certain the call changes nothing and returns false.  Collapse is read as
the candidate list after removal having exactly one element. -/
theorem eliminate_conflicting_values_spec (self other : SudokuCell) :
    (self.is_value_certain = true → other.is_value_certain = false →
      (let u := other.set_value_to_impossible self.get_value
       (other.possible.Nodup → ∀ x : Int,
          x ∈ u.possible ↔ x ∈ other.possible ∧ x ≠ self.get_value) ∧
       (u.possible.length = 1 →
          SudokuCell.eliminate_conflicting_values self other =
            .ok (true, self, u.set_value (u.possible.getD 0 0))) ∧
       (1 < u.possible.length →
          SudokuCell.eliminate_conflicting_values self other = .ok (false, self, u)))) ∧
    (self.is_value_certain = false → other.is_value_certain = true →
      (let u := self.set_value_to_impossible other.get_value
       (self.possible.Nodup → ∀ x : Int,
          x ∈ u.possible ↔ x ∈ self.possible ∧ x ≠ other.get_value) ∧
       (u.possible.length = 1 →
          SudokuCell.eliminate_conflicting_values self other =
            .ok (true, u.set_value (u.possible.getD 0 0), other)) ∧
       (1 < u.possible.length →
          SudokuCell.eliminate_conflicting_values self other = .ok (false, u, other)))) ∧
    (self.is_value_certain = other.is_value_certain →
      SudokuCell.eliminate_conflicting_values self other = .ok (false, self, other)) := by
  refine ⟨?_, ?_, ?_⟩
  · intro h1 h2
    refine ⟨fun hnd x => svti_mem other self.get_value hnd x, ?_, ?_⟩
    · intro hl
      rw [eliminate_case_one_certain self other h1 h2,
        can_det_uncertain_len1 _ (by rw [svti_certain]; exact h2) hl]
    · intro hl
      rw [eliminate_case_one_certain self other h1 h2,
        can_det_uncertain_len_gt1 _ (by rw [svti_certain]; exact h2) hl]
  · intro h1 h2
    have hcase : SudokuCell.eliminate_conflicting_values self other =
        match SudokuCell.can_value_be_determined
          (self.set_value_to_impossible other.get_value) with
        | .error e => .error e
        | .ok (b, u) => .ok (b, u, other) := by
      unfold SudokuCell.eliminate_conflicting_values
      simp only [h1, h2, Bool.not_false, Bool.false_and, Bool.and_self, if_neg, if_pos,
        Bool.false_eq_true, not_false_eq_true]
    refine ⟨fun hnd x => svti_mem self other.get_value hnd x, ?_, ?_⟩
    · intro hl
      rw [hcase, can_det_uncertain_len1 _ (by rw [svti_certain]; exact h1) hl]
    · intro hl
      rw [hcase, can_det_uncertain_len_gt1 _ (by rw [svti_certain]; exact h1) hl]
  · intro heq
    unfold SudokuCell.eliminate_conflicting_values
    cases hv : self.is_value_certain with
    | true => rw [hv] at heq; simp [hv, ← heq]
    | false => rw [hv] at heq; simp [hv, ← heq]

/-- Witness for C5 in the both-certain case. -/
theorem eliminate_conflicting_values_spec_witness :
    SudokuCell.eliminate_conflicting_values (SudokuCell.init 5) (SudokuCell.init 5) =
      .ok (false, SudokuCell.init 5, SudokuCell.init 5) :=
  (eliminate_conflicting_values_spec (SudokuCell.init 5) (SudokuCell.init 5)).2.2 rfl

/-- Helper: the holder-collecting while-loop returns the first (at most) 2
holders of the value among the positions. -/
theorem collect_possible_cells_eq (g : SudokuGrid) (v : Int) :
    ∀ (l acc : List (Nat × Nat)),
      SudokuGrid.collect_possible_cells g v l acc =
        acc ++ (l.filter (fun pos => (g.cell pos.1 pos.2).is_value_possible v)).take
          (2 - acc.length) := by
  intro l
  induction l with
  | nil => intro acc; simp [SudokuGrid.collect_possible_cells]
  | cons pos rest ih =>
    intro acc
    rw [SudokuGrid.collect_possible_cells]
    by_cases hlen : acc.length < 2
    · rw [if_pos hlen]
      by_cases hp : (g.cell pos.1 pos.2).is_value_possible v
      · rw [if_pos hp, ih]
        have h2 : 2 - acc.length = (2 - (acc ++ [pos]).length) + 1 := by
          simp
          omega
        simp only [List.filter_cons, hp, if_pos]
        rw [h2, List.take_succ_cons]
        simp
      · rw [if_neg hp, ih]
        simp only [List.filter_cons, hp]
        rw [if_neg (by simp)]
    · rw [if_neg hlen]
      have h0 : 2 - acc.length = 0 := by omega
      rw [h0, List.take_zero, List.append_nil]

/-- C6: for a box and a digit of values_to_check (not the value of any
certain cell of the box), the hidden-single step counts holder cells
stopping at two: zero holders raise UnsolvableGridError, exactly one
holder has the digit written as its value with the determination count
incremented by one, and two or more holders change nothing. -/
theorem hidden_single_value_trichotomy (g : SudokuGrid) (code : Nat) (v : Int)
    (n : Nat) (hcode : code < 9)
    (hv : v ∈ SudokuGrid.values_to_check (SudokuGrid.get_square_cells g code)) :
    (let idxs := SudokuGrid.square_indices code
     let holders := idxs.filter (fun pos => (g.cell pos.1 pos.2).is_value_possible v)
     SudokuGrid.collect_possible_cells g v idxs [] = holders.take 2 ∧
     (holders.length = 0 →
        SudokuGrid.hidden_single_value g idxs v n =
          .error { msg := "This grid cannot be solved!" }) ∧
     (holders.length = 1 →
        SudokuGrid.hidden_single_value g idxs v n =
          .ok (g.set_cell (holders.getD 0 (0, 0)).1 (holders.getD 0 (0, 0)).2
            ((g.cell (holders.getD 0 (0, 0)).1
              (holders.getD 0 (0, 0)).2).set_value v), n + 1)) ∧
     (2 ≤ holders.length →
        SudokuGrid.hidden_single_value g idxs v n = .ok (g, n))) := by
  intro idxs holders
  have hcollect : SudokuGrid.collect_possible_cells g v idxs [] = holders.take 2 := by
    rw [collect_possible_cells_eq g v idxs []]
    rfl
  refine ⟨hcollect, ?_, ?_, ?_⟩
  · intro h0
    have : holders = [] := List.length_eq_zero.mp h0
    unfold SudokuGrid.hidden_single_value
    rw [hcollect, this]
    rfl
  · intro h1
    obtain ⟨a, ha⟩ := List.length_eq_one.mp h1
    rw [ha] at hcollect
    simp only [List.take_succ_cons, List.take_zero] at hcollect
    unfold SudokuGrid.hidden_single_value
    rw [hcollect, ha]
    rfl
  · intro h2
    unfold SudokuGrid.hidden_single_value
    rw [hcollect]
    have hlt : (holders.take 2).length = 2 := by
      rw [List.length_take]
      omega
    rw [if_neg (by simp [hlt]), if_neg (by simp [hlt])]

theorem can_det_error_iff (c : SudokuCell) :
    is_error (SudokuCell.can_value_be_determined c) = true ↔
      c.is_value_certain = false ∧ c.possible = [] := by
  unfold SudokuCell.can_value_be_determined
  by_cases h1 : c.is_value_certain
  · simp [h1, is_error]
  · simp only [Bool.not_eq_true] at h1
    rw [if_neg (by simp [h1])]
    by_cases h2 : c.possible.length = 1
    · rw [if_pos (by simp [h2])]
      simp [is_error, h1]
      intro hnil
      rw [hnil] at h2
      simp at h2
    · rw [if_neg (by simp [h2])]
      by_cases h3 : c.possible.length = 0
      · rw [if_pos (by simp [h3])]
        simp [is_error, h1, List.length_eq_zero.mp h3]
      · rw [if_neg (by simp [h3])]
        simp [is_error, h1]
        intro hnil
        rw [hnil] at h3
        simp at h3

theorem eliminate_error_iff (self other : SudokuCell) :
    is_error (SudokuCell.eliminate_conflicting_values self other) = true ↔
      ((self.is_value_certain = true ∧ other.is_value_certain = false ∧
          (other.set_value_to_impossible self.get_value).possible = []) ∨
       (self.is_value_certain = false ∧ other.is_value_certain = true ∧
          (self.set_value_to_impossible other.get_value).possible = [])) := by
  by_cases h1 : self.is_value_certain
  · by_cases h2 : other.is_value_certain
    · unfold SudokuCell.eliminate_conflicting_values
      simp [h1, h2, is_error]
    · simp only [Bool.not_eq_true] at h2
      rw [eliminate_case_one_certain self other h1 h2]
      cases hc : SudokuCell.can_value_be_determined
          (other.set_value_to_impossible self.get_value) with
      | error e =>
        have := (can_det_error_iff _).mp (by rw [hc]; rfl)
        simp [is_error, h1, h2, this.2]
      | ok p =>
        have hne : ¬((other.set_value_to_impossible self.get_value).is_value_certain = false ∧
            (other.set_value_to_impossible self.get_value).possible = []) := by
          intro hcon
          have := (can_det_error_iff _).mpr hcon
          rw [hc] at this
          simp [is_error] at this
        obtain ⟨b, u⟩ := p
        simp only [is_error, h1, h2]
        simp
        intro hnil
        exact absurd ⟨by rw [svti_certain]; exact h2, hnil⟩ hne
  · simp only [Bool.not_eq_true] at h1
    by_cases h2 : other.is_value_certain
    · have hcase : SudokuCell.eliminate_conflicting_values self other =
          match SudokuCell.can_value_be_determined
            (self.set_value_to_impossible other.get_value) with
          | .error e => .error e
          | .ok (b, u) => .ok (b, u, other) := by
        unfold SudokuCell.eliminate_conflicting_values
        simp only [h1, h2, Bool.not_false, Bool.false_and, Bool.and_self, if_neg, if_pos,
          Bool.false_eq_true, not_false_eq_true]
      rw [hcase]
      cases hc : SudokuCell.can_value_be_determined
          (self.set_value_to_impossible other.get_value) with
      | error e =>
        have := (can_det_error_iff _).mp (by rw [hc]; rfl)
        simp [is_error, h1, h2, this.2]
      | ok p =>
        have hne : ¬((self.set_value_to_impossible other.get_value).is_value_certain = false ∧
            (self.set_value_to_impossible other.get_value).possible = []) := by
          intro hcon
          have := (can_det_error_iff _).mpr hcon
          rw [hc] at this
          simp [is_error] at this
        obtain ⟨b, u⟩ := p
        simp only [is_error, h1, h2]
        simp
        intro hnil
        exact absurd ⟨by rw [svti_certain]; exact h1, hnil⟩ hne
    · unfold SudokuCell.eliminate_conflicting_values
      simp only [Bool.not_eq_true] at h2
      simp [h1, h2, is_error]

theorem hsv_error_iff (g : SudokuGrid) (idxs : List (Nat × Nat)) (v : Int) (n : Nat) :
    is_error (SudokuGrid.hidden_single_value g idxs v n) = true ↔
      ∀ pos ∈ idxs, (g.cell pos.1 pos.2).is_value_possible v = false := by
  unfold SudokuGrid.hidden_single_value
  rw [collect_possible_cells_eq g v idxs []]
  simp only [List.nil_append, List.length_nil, Nat.sub_zero]
  by_cases hnil : (idxs.filter (fun pos => (g.cell pos.1 pos.2).is_value_possible v)) = []
  · rw [hnil]
    simp only [List.take_nil, List.length_nil]
    rw [if_neg (by simp), if_pos (by simp)]
    simp only [is_error, true_iff]
    intro pos hpos
    have := List.filter_eq_nil_iff.mp hnil pos hpos
    simpa using this
  · have hmem : ∃ a l, (idxs.filter (fun pos => (g.cell pos.1 pos.2).is_value_possible v)) = a :: l := by
      cases hf : (idxs.filter (fun pos => (g.cell pos.1 pos.2).is_value_possible v)) with
      | nil => exact absurd hf hnil
      | cons a l => exact ⟨a, l, rfl⟩
    obtain ⟨a, l, hf⟩ := hmem
    rw [hf]
    constructor
    · intro herr
      exfalso
      cases l with
      | nil =>
        simp only [List.take_succ_cons, List.take_nil, List.length_singleton] at herr
        simp [is_error] at herr
      | cons b t =>
        simp only [List.take_succ_cons, List.take_zero] at herr
        simp [is_error] at herr
    · intro hall
      exfalso
      have ha : a ∈ idxs.filter (fun pos => (g.cell pos.1 pos.2).is_value_possible v) := by
        rw [hf]
        exact List.mem_cons_self a l
      have := List.of_mem_filter ha
      have hmem2 := List.mem_of_mem_filter ha
      rw [hall a hmem2] at this
      cases this

theorem hsv_ok_possible (g : SudokuGrid) (idxs : List (Nat × Nat)) (v : Int)
    (n : Nat) (g1 : SudokuGrid) (n1 : Nat)
    (h : SudokuGrid.hidden_single_value g idxs v n = .ok (g1, n1)) :
    ∀ r c, (g1.cell r c).possible = (g.cell r c).possible := by
  unfold SudokuGrid.hidden_single_value at h
  by_cases h1 : (SudokuGrid.collect_possible_cells g v idxs []).length == 1
  · rw [if_pos h1] at h
    simp only [Except.ok.injEq, Prod.mk.injEq] at h
    obtain ⟨hg, hn⟩ := h
    intro r c
    rw [← hg]
    rcases cell_set_cell_cases g
        ((SudokuGrid.collect_possible_cells g v idxs []).getD 0 (0, 0)).1
        ((SudokuGrid.collect_possible_cells g v idxs []).getD 0 (0, 0)).2 r c
        ((g.cell ((SudokuGrid.collect_possible_cells g v idxs []).getD 0 (0, 0)).1
          ((SudokuGrid.collect_possible_cells g v idxs []).getD 0 (0, 0)).2).set_value v)
      with hcase | hcase
    · rw [hcase]
    · obtain ⟨hr, hc, heq⟩ := hcase
      subst hr
      subst hc
      rw [heq]
      rfl
  · rw [if_neg (by simpa using h1)] at h
    by_cases h0 : (SudokuGrid.collect_possible_cells g v idxs []).length == 0
    · rw [if_pos h0] at h
      cases h
    · rw [if_neg (by simpa using h0)] at h
      simp only [Except.ok.injEq, Prod.mk.injEq] at h
      rw [← h.1]
      intro r c
      rfl

theorem is_value_possible_congr (c1 c2 : SudokuCell) (v : Int)
    (h : c1.possible = c2.possible) :
    c1.is_value_possible v = c2.is_value_possible v := by
  unfold SudokuCell.is_value_possible
  rw [h]

theorem except_bind_ok {ε α β : Type _} (x : Except ε α) (f : α → Except ε β) (b : β)
    (h : (x >>= f) = .ok b) : ∃ a, x = .ok a ∧ f a = .ok b := by
  cases x with
  | error e => simp [Bind.bind, Except.bind] at h
  | ok a => exact ⟨a, rfl, by simpa [Bind.bind, Except.bind] using h⟩

theorem fold_hidden_error_iff (idxs : List (Nat × Nat)) :
    ∀ (values : List Int) (g : SudokuGrid) (n : Nat),
      is_error (values.foldlM (fun (acc : SudokuGrid × Nat) value =>
        SudokuGrid.hidden_single_value acc.1 idxs value acc.2) (g, n)) = true ↔
      ∃ v ∈ values, ∀ pos ∈ idxs, (g.cell pos.1 pos.2).is_value_possible v = false := by
  intro values
  induction values with
  | nil =>
    intro g n
    simp [List.foldlM, is_error, pure, Except.pure]
  | cons v rest ih =>
    intro g n
    rw [List.foldlM_cons]
    cases hc : SudokuGrid.hidden_single_value g idxs v n with
    | error e =>
      rw [show ((Except.error e : Except UnsolvableGridError (SudokuGrid × Nat)) >>=
          fun init => List.foldlM (fun (acc : SudokuGrid × Nat) value =>
            SudokuGrid.hidden_single_value acc.1 idxs value acc.2) init rest) =
          (.error e : Except UnsolvableGridError (SudokuGrid × Nat)) from rfl]
      simp only [is_error, true_iff]
      exact ⟨v, List.mem_cons_self v rest, (hsv_error_iff g idxs v n).mp (by rw [hc]; rfl)⟩
    | ok p =>
      obtain ⟨g1, n1⟩ := p
      rw [show ((Except.ok (g1, n1) : Except UnsolvableGridError (SudokuGrid × Nat)) >>=
          fun init => List.foldlM (fun (acc : SudokuGrid × Nat) value =>
            SudokuGrid.hidden_single_value acc.1 idxs value acc.2) init rest) =
          List.foldlM (fun (acc : SudokuGrid × Nat) value =>
            SudokuGrid.hidden_single_value acc.1 idxs value acc.2) (g1, n1) rest from rfl,
        ih g1 n1]
      have hposs : ∀ (v2 : Int) (pos : Nat × Nat),
          (g1.cell pos.1 pos.2).is_value_possible v2 =
          (g.cell pos.1 pos.2).is_value_possible v2 := by
        intro v2 pos
        exact is_value_possible_congr _ _ _ (hsv_ok_possible g idxs v n g1 n1 hc _ _)
      have hnotv : ¬ ∀ pos ∈ idxs, (g.cell pos.1 pos.2).is_value_possible v = false := by
        intro hcon
        have := (hsv_error_iff g idxs v n).mpr hcon
        rw [hc] at this
        simp [is_error] at this
      constructor
      · rintro ⟨v2, hv2, hall⟩
        exact ⟨v2, List.mem_cons_of_mem v hv2, fun pos hpos => by
          rw [← hposs v2 pos]; exact hall pos hpos⟩
      · rintro ⟨v2, hv2, hall⟩
        rcases List.mem_cons.mp hv2 with hv2 | hv2
        · subst hv2
          exact absurd hall hnotv
        · exact ⟨v2, hv2, fun pos hpos => by rw [hposs v2 pos]; exact hall pos hpos⟩

/-- C3: UnsolvableGridError arises exactly when an uncertain cell's
candidate list is empty at a can_value_be_determined call, equivalently
when an elimination empties the uncertain cell's candidates, or when some
digit of a box's values_to_check has no cell of the box listing it as
possible; and the all-unknown grid merely stalls: solve returns false on
it, unchanged and without error. -/
theorem contradiction_characterization :
    (∀ c : SudokuCell, is_error (SudokuCell.can_value_be_determined c) = true ↔
      c.is_value_certain = false ∧ c.possible = []) ∧
    (∀ self other : SudokuCell,
      is_error (SudokuCell.eliminate_conflicting_values self other) = true ↔
      ((self.is_value_certain = true ∧ other.is_value_certain = false ∧
          (other.set_value_to_impossible self.get_value).possible = []) ∨
       (self.is_value_certain = false ∧ other.is_value_certain = true ∧
          (self.set_value_to_impossible other.get_value).possible = []))) ∧
    (∀ (g : SudokuGrid) (code n : Nat),
      is_error (SudokuGrid.hidden_single_square g code n) = true ↔
      ∃ v ∈ SudokuGrid.values_to_check (SudokuGrid.get_square_cells g code),
        ∀ pos ∈ SudokuGrid.square_indices code,
          (g.cell pos.1 pos.2).is_value_possible v = false) ∧
    SudokuGrid.solve (SudokuGrid.create_from_matrix all_zeros_matrix) 2 =
      some (.ok (false, SudokuGrid.create_from_matrix all_zeros_matrix)) := by
  refine ⟨can_det_error_iff, eliminate_error_iff, ?_, by decide⟩
  intro g code n
  unfold SudokuGrid.hidden_single_square
  exact fold_hidden_error_iff (SudokuGrid.square_indices code) _ g n

/-- Witness for C6 on all three branches. -/
theorem hidden_single_value_trichotomy_witness :
    SudokuGrid.hidden_single_value no_holder_grid (SudokuGrid.square_indices 0) 2 0 =
      .error { msg := "This grid cannot be solved!" } ∧
    SudokuGrid.hidden_single_value one_holder_grid (SudokuGrid.square_indices 0) 2 0 =
      .ok (one_holder_grid.set_cell 0 0 ⟨2, [1, 2], []⟩, 1) ∧
    SudokuGrid.hidden_single_value (SudokuGrid.init "") (SudokuGrid.square_indices 0) 2 0 =
      .ok (SudokuGrid.init "", 0) := by
  refine ⟨(hidden_single_value_trichotomy no_holder_grid 0 2 0 (by decide)
      (by decide)).2.1 (by decide), ?_,
    (hidden_single_value_trichotomy (SudokuGrid.init "") 0 2 0 (by decide)
      (by decide)).2.2.2 (by decide)⟩
  have h := (hidden_single_value_trichotomy one_holder_grid 0 2 0 (by decide)
    (by decide)).2.2.1 (by decide)
  exact h.trans (by decide)

/-! Characterization of the nested set-all-entries loops used by
create_from_matrix, get_as_matrix and clone. -/

theorem row_pass_spec (d : α) (i : Nat) (f : Nat → α → α) :
    ∀ (jn j0 : Nat) (m : List (List α)),
      (row_pass d i f j0 jn m).length = m.length ∧
      (∀ r, ((row_pass d i f j0 jn m).getD r []).length = (m.getD r []).length) ∧
      (∀ r c, r ≠ i → mget d (row_pass d i f j0 jn m) r c = mget d m r c) ∧
      (∀ c, c < j0 ∨ j0 + jn ≤ c →
        mget d (row_pass d i f j0 jn m) i c = mget d m i c) ∧
      (∀ c, j0 ≤ c → c < j0 + jn → i < m.length → c < (m.getD i []).length →
        mget d (row_pass d i f j0 jn m) i c = f c (mget d m i c)) := by
  intro jn
  induction jn with
  | zero =>
    intro j0 m
    refine ⟨rfl, fun r => rfl, fun r c _ => rfl, fun c _ => rfl, fun c h1 h2 _ _ => ?_⟩
    omega
  | succ n ih =>
    intro j0 m
    have hstep : row_pass d i f j0 (n + 1) m =
        row_pass d i f (j0 + 1) n (mset m i j0 (f j0 (mget d m i j0))) := by
      unfold row_pass
      rw [List.range'_succ, List.foldl_cons]
    set m1 := mset m i j0 (f j0 (mget d m i j0)) with hm1
    obtain ⟨ha, hb, hc, hd, he⟩ := ih (j0 + 1) m1
    rw [hstep]
    refine ⟨?_, ?_, ?_, ?_, ?_⟩
    · rw [ha, hm1, length_mset]
    · intro r
      rw [hb r, hm1, mset_row_length]
    · intro r c hr
      rw [hc r c hr, hm1, mget_mset_ne _ _ _ _ _ _ _ (fun hcon => hr hcon.1)]
    · intro c hcond
      have hne : ¬(i = i ∧ c = j0) := by omega
      rcases hcond with hlt | hge
      · rw [hd c (Or.inl (by omega)), hm1, mget_mset_ne _ _ _ _ _ _ _ hne]
      · rw [hd c (Or.inr (by omega)), hm1, mget_mset_ne _ _ _ _ _ _ _ hne]
    · intro c h1 h2 h3 h4
      by_cases hcj : c = j0
      · subst hcj
        rw [hd c (Or.inl (by omega)), hm1, mget_mset_eq _ _ _ _ _ h3 h4]
      · have : mget d m1 i c = mget d m i c := by
          rw [hm1, mget_mset_ne _ _ _ _ _ _ _ (fun hcon => hcj hcon.2)]
        rw [he c (by omega) (by omega) (by rw [hm1, length_mset]; exact h3)
          (by rw [hm1, mset_row_length]; exact h4), this]

theorem grid_pass_spec (d : α) (f : Nat → Nat → α → α) (J : Nat → Nat) :
    ∀ (ilen i0 : Nat) (m : List (List α)),
      (grid_pass d f J i0 ilen m).length = m.length ∧
      (∀ r, ((grid_pass d f J i0 ilen m).getD r []).length = (m.getD r []).length) ∧
      (∀ r c, r < i0 ∨ i0 + ilen ≤ r →
        mget d (grid_pass d f J i0 ilen m) r c = mget d m r c) ∧
      (∀ r c, i0 ≤ r → r < i0 + ilen → r < m.length → c < J r →
        c < (m.getD r []).length →
        mget d (grid_pass d f J i0 ilen m) r c = f r c (mget d m r c)) := by
  intro ilen
  induction ilen with
  | zero =>
    intro i0 m
    refine ⟨rfl, fun r => rfl, fun r c _ => rfl, fun r c h1 h2 _ _ _ => ?_⟩
    omega
  | succ n ih =>
    intro i0 m
    have hstep : grid_pass d f J i0 (n + 1) m =
        grid_pass d f J (i0 + 1) n (row_pass d i0 (f i0) 0 (J i0) m) := by
      unfold grid_pass
      rw [List.range'_succ, List.foldl_cons]
    set m1 := row_pass d i0 (f i0) 0 (J i0) m with hm1
    obtain ⟨ra, rb, rc, rd, re⟩ := row_pass_spec d i0 (f i0) (J i0) 0 m
    obtain ⟨ha, hb, hc, hd⟩ := ih (i0 + 1) m1
    rw [hstep]
    refine ⟨?_, ?_, ?_, ?_⟩
    · rw [ha, hm1, ra]
    · intro r
      rw [hb r, hm1, rb r]
    · intro r c hr
      have hri : r ≠ i0 := by omega
      rw [hc r c (by omega), hm1, rc r c hri]
    · intro r c h1 h2 h3 h4 h5
      by_cases hri : r = i0
      · subst hri
        rw [hc r c (Or.inl (by omega)), hm1, re c (by omega) (by omega) h3 h5]
      · have hm1get : mget d m1 r c = mget d m r c := by
          rw [hm1]
          exact rc r c hri
        rw [hd r c (by omega) (by omega) (by rw [hm1, ra]; exact h3) h4
          (by rw [hm1, rb r]; exact h5), hm1get]

theorem foldl_grid_proj {β : Type _} (step : SudokuGrid → β → SudokuGrid)
    (stepm : List (List SudokuCell) → β → List (List SudokuCell))
    (hgrid : ∀ g b, (step g b).grid = stepm g.grid b)
    (hused : ∀ g b, (step g b).used_cell = g.used_cell)
    (hsym : ∀ g b,
      (step g b).custom_unknown_cell_symbol = g.custom_unknown_cell_symbol) :
    ∀ (l : List β) (g : SudokuGrid),
      (l.foldl step g).grid = l.foldl stepm g.grid ∧
      (l.foldl step g).used_cell = g.used_cell ∧
      (l.foldl step g).custom_unknown_cell_symbol =
        g.custom_unknown_cell_symbol := by
  intro l
  induction l with
  | nil => exact fun g => ⟨rfl, rfl, rfl⟩
  | cons b t ih =>
    intro g
    rw [List.foldl_cons, List.foldl_cons]
    obtain ⟨h1, h2, h3⟩ := ih (step g b)
    exact ⟨by rw [h1, hgrid], by rw [h2, hused], by rw [h3, hsym]⟩

theorem create_from_matrix_parts (matrix : List (List Int)) :
    (SudokuGrid.create_from_matrix matrix).grid =
      grid_pass (SudokuCell.init SudokuCell.DEFAULT_VALUE)
        (fun i j cur => cur.set_value (mget 0 matrix i j))
        (fun _ => (matrix.getD 0 []).length) 0 matrix.length
        (SudokuGrid.init "").grid ∧
    (SudokuGrid.create_from_matrix matrix).used_cell =
      (SudokuGrid.init "").used_cell ∧
    (SudokuGrid.create_from_matrix matrix).custom_unknown_cell_symbol = "" := by
  have hinner : ∀ (i : Nat) (g : SudokuGrid),
      ((List.range (matrix.getD 0 []).length).foldl (fun g j =>
        g.set_cell i j ((g.cell i j).set_value (mget 0 matrix i j))) g).grid =
      row_pass (SudokuCell.init SudokuCell.DEFAULT_VALUE) i
        (fun j cur => cur.set_value (mget 0 matrix i j)) 0
        (matrix.getD 0 []).length g.grid ∧
      ((List.range (matrix.getD 0 []).length).foldl (fun g j =>
        g.set_cell i j ((g.cell i j).set_value (mget 0 matrix i j))) g).used_cell =
        g.used_cell ∧
      ((List.range (matrix.getD 0 []).length).foldl (fun g j =>
        g.set_cell i j ((g.cell i j).set_value
          (mget 0 matrix i j))) g).custom_unknown_cell_symbol =
        g.custom_unknown_cell_symbol := by
    intro i g
    have := foldl_grid_proj
      (fun g j => g.set_cell i j ((g.cell i j).set_value (mget 0 matrix i j)))
      (fun m j => mset m i j ((mget (SudokuCell.init SudokuCell.DEFAULT_VALUE) m i j).set_value
        (mget 0 matrix i j)))
      (fun g j => rfl) (fun g j => rfl) (fun g j => rfl)
      (List.range (matrix.getD 0 []).length) g
    rw [row_pass, ← List.range_eq_range']
    exact this
  have houter := foldl_grid_proj
    (fun g i => (List.range (matrix.getD 0 []).length).foldl (fun g j =>
      g.set_cell i j ((g.cell i j).set_value (mget 0 matrix i j))) g)
    (fun m i => row_pass (SudokuCell.init SudokuCell.DEFAULT_VALUE) i
      (fun j cur => cur.set_value (mget 0 matrix i j)) 0 (matrix.getD 0 []).length m)
    (fun g i => (hinner i g).1) (fun g i => (hinner i g).2.1)
    (fun g i => (hinner i g).2.2)
    (List.range matrix.length) (SudokuGrid.init "")
  rw [SudokuGrid.create_from_matrix, grid_pass, ← List.range_eq_range']
  exact houter

theorem getD_map_range (n : Nat) (f : Nat → α) (r : Nat) (d : α) (hr : r < n) :
    ((List.range n).map f).getD r d = f r := by
  rw [List.getD_eq_getElem _ _ (by simp [hr])]
  simp

theorem get_as_matrix_eq (g : SudokuGrid) :
    g.get_as_matrix =
      grid_pass (-1) (fun i j _ => (g.cell i j).get_value)
        (fun _ => (g.grid.getD 0 []).length) 0 g.grid.length
        ((List.range 9).map (fun _ => (List.range 9).map (fun _ => (-1 : Int)))) := by
  unfold SudokuGrid.get_as_matrix grid_pass row_pass
  simp only [← List.range_eq_range']

theorem clone_parts (g : SudokuGrid) :
    g.clone.grid = grid_pass (SudokuCell.init SudokuCell.DEFAULT_VALUE)
      (fun i j _ => (g.cell i j).clone) (fun i => (g.grid.getD i []).length)
      0 g.grid.length (SudokuGrid.init g.custom_unknown_cell_symbol).grid ∧
    g.clone.used_cell = (SudokuGrid.init g.custom_unknown_cell_symbol).used_cell ∧
    g.clone.custom_unknown_cell_symbol = g.custom_unknown_cell_symbol := by
  have hinner : ∀ (i : Nat) (cg : SudokuGrid),
      ((List.range (g.grid.getD i []).length).foldl (fun cg j =>
        cg.set_cell i j ((g.cell i j).clone)) cg).grid =
      row_pass (SudokuCell.init SudokuCell.DEFAULT_VALUE) i
        (fun j _ => (g.cell i j).clone) 0 (g.grid.getD i []).length cg.grid ∧
      ((List.range (g.grid.getD i []).length).foldl (fun cg j =>
        cg.set_cell i j ((g.cell i j).clone)) cg).used_cell = cg.used_cell ∧
      ((List.range (g.grid.getD i []).length).foldl (fun cg j =>
        cg.set_cell i j ((g.cell i j).clone)) cg).custom_unknown_cell_symbol =
        cg.custom_unknown_cell_symbol := by
    intro i cg
    have := foldl_grid_proj
      (fun cg j => cg.set_cell i j ((g.cell i j).clone))
      (fun m j => mset m i j ((g.cell i j).clone))
      (fun cg j => rfl) (fun cg j => rfl) (fun cg j => rfl)
      (List.range (g.grid.getD i []).length) cg
    rw [row_pass, ← List.range_eq_range']
    exact this
  have houter := foldl_grid_proj
    (fun cg i => (List.range (g.grid.getD i []).length).foldl (fun cg j =>
      cg.set_cell i j ((g.cell i j).clone)) cg)
    (fun m i => row_pass (SudokuCell.init SudokuCell.DEFAULT_VALUE) i
      (fun j _ => (g.cell i j).clone) 0 (g.grid.getD i []).length m)
    (fun cg i => (hinner i cg).1) (fun cg i => (hinner i cg).2.1)
    (fun cg i => (hinner i cg).2.2)
    (List.range g.grid.length) (SudokuGrid.init g.custom_unknown_cell_symbol)
  rw [SudokuGrid.clone, grid_pass, ← List.range_eq_range']
  exact houter

theorem init_grid_length (s : String) : (SudokuGrid.init s).grid.length = 9 := by
  simp [SudokuGrid.init]

theorem init_grid_row_length (s : String) (r : Nat) (hr : r < 9) :
    ((SudokuGrid.init s).grid.getD r []).length = 9 := by
  unfold SudokuGrid.init
  rw [getD_map_range _ _ _ _ hr]
  simp

theorem init_grid_cell (s : String) (r c : Nat) (hr : r < 9) (hc : c < 9) :
    mget (SudokuCell.init SudokuCell.DEFAULT_VALUE) (SudokuGrid.init s).grid r c =
      SudokuCell.init 0 := by
  unfold SudokuGrid.init mget
  rw [getD_map_range _ _ _ _ hr, getD_map_range _ _ _ _ hc]
  rfl

theorem matrix_ext (a b : List (List α)) (hlen : a.length = b.length)
    (hrow : ∀ r, r < a.length → (a.getD r []).length = (b.getD r []).length)
    (hget : ∀ (d : α) (r c : Nat), r < a.length → c < (a.getD r []).length →
      mget d a r c = mget d b r c) :
    a = b := by
  apply List.ext_getElem hlen
  intro r h1 h2
  apply List.ext_getElem
  · have := hrow r h1
    rw [List.getD_eq_getElem a [] h1, List.getD_eq_getElem b [] h2] at this
    exact this
  · intro c hc1 hc2
    have := hget (a[r][c]) r c h1 (by rw [List.getD_eq_getElem a [] h1]; exact hc1)
    unfold mget at this
    rw [List.getD_eq_getElem a [] h1, List.getD_eq_getElem b [] h2] at this
    rw [List.getD_eq_getElem _ _ hc1, List.getD_eq_getElem _ _ hc2] at this
    exact this

theorem create_from_matrix_cell (matrix : List (List Int)) (h9 : matrix.length = 9)
    (hrows : ∀ row ∈ matrix, row.length = 9) (r c : Nat) (hr : r < 9) (hc : c < 9) :
    (SudokuGrid.create_from_matrix matrix).cell r c =
      (SudokuCell.init 0).set_value (mget 0 matrix r c) := by
  have hrow0 : (matrix.getD 0 []).length = 9 := by
    apply hrows
    rw [List.getD_eq_getElem matrix [] (by omega)]
    exact List.getElem_mem _
  obtain ⟨hgrid, _, _⟩ := create_from_matrix_parts matrix
  obtain ⟨_, _, _, hin⟩ := grid_pass_spec (SudokuCell.init SudokuCell.DEFAULT_VALUE)
    (fun i j cur => cur.set_value (mget 0 matrix i j))
    (fun _ => (matrix.getD 0 []).length) matrix.length 0 (SudokuGrid.init "").grid
  show mget (SudokuCell.init SudokuCell.DEFAULT_VALUE)
    (SudokuGrid.create_from_matrix matrix).grid r c = _
  rw [hgrid, hin r c (by omega) (by omega) (by rw [init_grid_length]; omega)
    (by omega) (by rw [init_grid_row_length _ _ hr]; omega),
    init_grid_cell _ _ _ hr hc]

theorem create_from_matrix_shape (matrix : List (List Int)) :
    grid_shape (SudokuGrid.create_from_matrix matrix) := by
  obtain ⟨hgrid, _, _⟩ := create_from_matrix_parts matrix
  obtain ⟨ha, hb, _, _⟩ := grid_pass_spec (SudokuCell.init SudokuCell.DEFAULT_VALUE)
    (fun i j cur => cur.set_value (mget 0 matrix i j))
    (fun _ => (matrix.getD 0 []).length) matrix.length 0 (SudokuGrid.init "").grid
  constructor
  · rw [hgrid, ha, init_grid_length]
  · intro row hrow
    rw [hgrid] at hrow
    obtain ⟨i, hi, hrow_eq⟩ := List.getElem_of_mem hrow
    have hlen : (grid_pass (SudokuCell.init SudokuCell.DEFAULT_VALUE)
        (fun i j cur => cur.set_value (mget 0 matrix i j))
        (fun _ => (matrix.getD 0 []).length) 0 matrix.length
        (SudokuGrid.init "").grid).length = 9 := by
      rw [ha, init_grid_length]
    rw [← hrow_eq, ← List.getD_eq_getElem _ [] hi, hb i,
      init_grid_row_length _ i (by omega)]

theorem mget_in_range_eq (m : List (List α)) (d1 d2 : α) (r c : Nat)
    (hr : r < m.length) (hc : c < (m.getD r []).length) :
    mget d1 m r c = mget d2 m r c := by
  unfold mget
  rw [List.getD_eq_getElem _ _ hc, List.getD_eq_getElem _ _ hc]

/-- C10: building a grid from a 9x9 integer matrix with create_from_matrix
and reading it back with get_as_matrix is the identity. -/
theorem create_get_roundtrip (matrix : List (List Int)) (h9 : matrix.length = 9)
    (hrows : ∀ row ∈ matrix, row.length = 9) :
    (SudokuGrid.create_from_matrix matrix).get_as_matrix = matrix := by
  have hshape := create_from_matrix_shape matrix
  have hG9 : (SudokuGrid.create_from_matrix matrix).grid.length = 9 := hshape.1
  have hGrow : ∀ r, r < 9 →
      ((SudokuGrid.create_from_matrix matrix).grid.getD r []).length = 9 := by
    intro r hr
    apply hshape.2
    rw [List.getD_eq_getElem _ [] (by omega)]
    exact List.getElem_mem _
  have hG0 : ((SudokuGrid.create_from_matrix matrix).grid.getD 0 []).length = 9 :=
    hGrow 0 (by omega)
  have hbase_len : ((List.range 9).map
      (fun _ => (List.range 9).map (fun _ => (-1 : Int)))).length = 9 := by simp
  have hbase_row : ∀ r, r < 9 → (((List.range 9).map
      (fun _ => (List.range 9).map (fun _ => (-1 : Int)))).getD r []).length = 9 := by
    intro r hr
    rw [getD_map_range _ _ _ _ hr]
    simp
  obtain ⟨pa, pb, pc, pd⟩ := grid_pass_spec (-1)
    (fun i j _ => ((SudokuGrid.create_from_matrix matrix).cell i j).get_value)
    (fun _ => ((SudokuGrid.create_from_matrix matrix).grid.getD 0 []).length)
    (SudokuGrid.create_from_matrix matrix).grid.length 0
    ((List.range 9).map (fun _ => (List.range 9).map (fun _ => (-1 : Int))))
  have hmrow : ∀ r, r < 9 → (matrix.getD r []).length = 9 := by
    intro r hr
    apply hrows
    rw [List.getD_eq_getElem _ [] (by omega)]
    exact List.getElem_mem _
  have hres_len : (SudokuGrid.create_from_matrix matrix).get_as_matrix.length = 9 := by
    rw [get_as_matrix_eq, pa, hbase_len]
  have hres_row : ∀ r, r < 9 →
      ((SudokuGrid.create_from_matrix matrix).get_as_matrix.getD r []).length = 9 := by
    intro r hr
    rw [get_as_matrix_eq, pb r, hbase_row r hr]
  apply matrix_ext
  · rw [hres_len, h9]
  · intro r hr
    rw [hres_len] at hr
    rw [hres_row r hr, hmrow r hr]
  · intro d r c hrr hcc
    rw [hres_len] at hrr
    rw [hres_row r hrr] at hcc
    have hstep1 : mget d (SudokuGrid.create_from_matrix matrix).get_as_matrix r c =
        mget (-1) (SudokuGrid.create_from_matrix matrix).get_as_matrix r c := by
      apply mget_in_range_eq
      · rw [hres_len]
        exact hrr
      · rw [hres_row r hrr]
        exact hcc
    rw [hstep1, get_as_matrix_eq,
      pd r c (by omega) (by omega) (by rw [hbase_len]; omega)
        (by rw [hG0]; omega) (by rw [hbase_row r hrr]; omega)]
    have hcell := create_from_matrix_cell matrix h9 hrows r c hrr hcc
    rw [hcell]
    show mget 0 matrix r c = mget d matrix r c
    apply mget_in_range_eq
    · omega
    · rw [hmrow r hrr]
      exact hcc

/-- Witness for C10 at a concrete matrix. -/
theorem create_get_roundtrip_witness :
    (SudokuGrid.create_from_matrix one_five_matrix).get_as_matrix = one_five_matrix :=
  create_get_roundtrip one_five_matrix (by decide) (by decide)

theorem clone_cell (g : SudokuGrid) (hshape : grid_shape g) (r c : Nat)
    (hr : r < 9) (hc : c < 9) :
    g.clone.cell r c = (g.cell r c).clone := by
  have hlen9 : g.grid.length = 9 := hshape.1
  have hGrow : ∀ i, i < 9 → (g.grid.getD i []).length = 9 := by
    intro i hi
    apply hshape.2
    rw [List.getD_eq_getElem _ [] (by omega)]
    exact List.getElem_mem _
  obtain ⟨hgrid, _, _⟩ := clone_parts g
  obtain ⟨_, _, _, pd⟩ := grid_pass_spec (SudokuCell.init SudokuCell.DEFAULT_VALUE)
    (fun i j _ => (g.cell i j).clone) (fun i => (g.grid.getD i []).length)
    g.grid.length 0 (SudokuGrid.init g.custom_unknown_cell_symbol).grid
  show mget (SudokuCell.init SudokuCell.DEFAULT_VALUE) g.clone.grid r c = _
  rw [hgrid, pd r c (by omega) (by rw [hshape.1]; omega)
    (by rw [init_grid_length]; omega) (by rw [hGrow r hr]; omega)
    (by rw [init_grid_row_length _ _ hr]; omega)]

theorem clone_used_false (g : SudokuGrid) (r c : Nat) (hr : r < 9) (hc : c < 9) :
    g.clone.used r c = false := by
  obtain ⟨_, hused, _⟩ := clone_parts g
  show mget false g.clone.used_cell r c = false
  rw [hused]
  unfold SudokuGrid.init mget
  simp only
  rw [getD_map_range _ _ _ _ hr, getD_map_range _ _ _ _ hc]

/-- C8: clone rebuilds every cell of a 9x9 grid from its value alone: each
cloned cell is the constructor applied to the old value, so cells with
value 0 become fully open again (all nine candidates, value still 0),
cells with nonzero value keep their value, and the used-cell flags of the
clone are all false. -/
theorem clone_reseeds_candidates (g : SudokuGrid) (hshape : grid_shape g)
    (r c : Nat) (hr : r < 9) (hc : c < 9) :
    g.clone.cell r c = SudokuCell.init (g.cell r c).get_value ∧
    ((g.cell r c).value = 0 →
      (g.clone.cell r c).value = 0 ∧
      (g.clone.cell r c).possible = [1, 2, 3, 4, 5, 6, 7, 8, 9]) ∧
    ((g.cell r c).value ≠ 0 →
      (g.clone.cell r c).value = (g.cell r c).value ∧
      (g.clone.cell r c).possible = [(g.cell r c).value]) ∧
    g.clone.used r c = false ∧
    g.clone.custom_unknown_cell_symbol = g.custom_unknown_cell_symbol := by
  have hcell := clone_cell g hshape r c hr hc
  refine ⟨hcell, ?_, ?_, clone_used_false g r c hr hc, (clone_parts g).2.2⟩
  · intro h0
    rw [hcell]
    unfold SudokuCell.clone SudokuCell.init
    rw [if_neg (by simp [SudokuCell.is_default_value, SudokuCell.get_default_value,
      SudokuCell.DEFAULT_VALUE, SudokuCell.get_value, h0])]
    refine ⟨h0, ?_⟩
    rfl
  · intro h0
    rw [hcell]
    unfold SudokuCell.clone SudokuCell.init
    rw [if_pos (by simp [SudokuCell.is_default_value, SudokuCell.get_default_value,
      SudokuCell.DEFAULT_VALUE, SudokuCell.get_value, h0])]
    exact ⟨rfl, rfl⟩

/-- Witness for C8 on the grid built from one_five_matrix. -/
theorem clone_reseeds_candidates_witness :
    (SudokuGrid.create_from_matrix one_five_matrix).clone.cell 0 0 =
      SudokuCell.init 5 ∧
    ((SudokuGrid.create_from_matrix one_five_matrix).clone.cell 0 1).possible =
      [1, 2, 3, 4, 5, 6, 7, 8, 9] ∧
    (SudokuGrid.create_from_matrix one_five_matrix).clone.used 0 0 = false := by
  have h := clone_reseeds_candidates (SudokuGrid.create_from_matrix one_five_matrix)
    (by decide) 0 0 (by decide) (by decide)
  have h2 := clone_reseeds_candidates (SudokuGrid.create_from_matrix one_five_matrix)
    (by decide) 0 1 (by decide) (by decide)
  exact ⟨h.1.trans (by decide), (h2.2.1 (by decide)).2, h.2.2.2.1⟩

/-! Preservation of the 9x9 grid shape by every operation of solve. -/

theorem shape_mset {α : Type _} (m : List (List α)) (r c : Nat) (x : α)
    (hlen : m.length = 9) (hrow : ∀ row ∈ m, row.length = 9) :
    (mset m r c x).length = 9 ∧ ∀ row ∈ mset m r c x, row.length = 9 := by
  refine ⟨by rw [length_mset, hlen], ?_⟩
  intro row hmem
  unfold mset at hmem
  by_cases hr : r < m.length
  · rcases List.mem_or_eq_of_mem_set hmem with h1 | h1
    · exact hrow _ h1
    · subst h1
      rw [List.length_set]
      exact hrow _ (by rw [List.getD_eq_getElem _ _ hr]; exact List.getElem_mem _)
  · rw [List.set_eq_of_length_le (le_of_not_lt hr)] at hmem
    exact hrow _ hmem

theorem grid_shape_set_cell (g : SudokuGrid) (r c : Nat) (x : SudokuCell)
    (h : grid_shape g) : grid_shape (g.set_cell r c x) :=
  shape_mset g.grid r c x h.1 h.2

theorem grid_shape_set_used (g : SudokuGrid) (r c : Nat) (b : Bool)
    (h : grid_shape g) : grid_shape (g.set_used r c b) := h

theorem elim_target_shape (g : SudokuGrid) (comparison : SudokuCell)
    (r c : Nat) (n : Nat) (s1 : SudokuGrid × Nat)
    (h : SudokuGrid.elim_target g comparison r c n = .ok s1)
    (hs : grid_shape g) : grid_shape s1.1 := by
  unfold SudokuGrid.elim_target at h
  cases he : SudokuCell.eliminate_conflicting_values (g.cell r c) comparison with
  | error e => rw [he] at h; cases h
  | ok p =>
    obtain ⟨b, target, other⟩ := p
    rw [he] at h
    simp only [Except.ok.injEq] at h
    rw [← h]
    exact grid_shape_set_cell g r c target hs

theorem foldlM_ok_preserve {σ β : Type _} (P : σ → Prop)
    (f : σ → β → Except UnsolvableGridError σ)
    (hf : ∀ s b s1, P s → f s b = .ok s1 → P s1) :
    ∀ (l : List β) (s s1 : σ), P s → l.foldlM f s = .ok s1 → P s1 := by
  intro l
  induction l with
  | nil =>
    intro s s1 hP h
    rw [List.foldlM_nil] at h
    cases h
    exact hP
  | cons b t ih =>
    intro s s1 hP h
    rw [List.foldlM_cons] at h
    obtain ⟨s2, h2, h3⟩ := except_bind_ok _ _ _ h
    exact ih s2 s1 (hf s b s2 hP h2) h3

theorem elim_or_skip_shape (g : SudokuGrid) (comparison : SudokuCell)
    (r c n : Nat) (cond : Bool) (s1 : SudokuGrid × Nat)
    (h : (if cond then SudokuGrid.elim_target g comparison r c n
      else Except.ok (g, n)) = .ok s1)
    (hs : grid_shape g) : grid_shape s1.1 := by
  cases cond with
  | true =>
    rw [if_pos rfl] at h
    exact elim_target_shape g comparison r c n s1 h hs
  | false =>
    rw [if_neg (by simp)] at h
    cases h
    exact hs

theorem elim_or_skip_shape2 (comparison : SudokuCell)
    (r c : Nat) (s : SudokuGrid × Nat) (cond : Bool) (s1 : SudokuGrid × Nat)
    (h : (if cond then SudokuGrid.elim_target s.1 comparison r c s.2
      else Except.ok s) = .ok s1)
    (hs : grid_shape s.1) : grid_shape s1.1 := by
  cases cond with
  | true =>
    rw [if_pos rfl] at h
    exact elim_target_shape s.1 comparison r c s.2 s1 h hs
  | false =>
    rw [if_neg (by simp)] at h
    cases h
    exact hs

theorem row_col_elim_step_shape (comparison : SudokuCell) (r c : Nat)
    (s s1 : SudokuGrid × Nat)
    (h : SudokuGrid.row_col_elim_step comparison r c s k = .ok s1)
    (hs : grid_shape s.1) : grid_shape s1.1 := by
  unfold SudokuGrid.row_col_elim_step at h
  cases hinner : (if k ≠ c && ! (s.1.cell r k).is_value_certain then
      SudokuGrid.elim_target s.1 comparison r k s.2
    else Except.ok s) with
  | error e => rw [hinner] at h; cases h
  | ok s4 =>
    rw [hinner] at h
    exact elim_or_skip_shape2 _ _ _ _ _ _ h
      (elim_or_skip_shape2 _ _ _ _ _ _ hinner hs)

theorem square_elim_step_shape (comparison : SudokuCell) (r c : Nat)
    (s s1 : SudokuGrid × Nat) (pos : Nat × Nat)
    (h : SudokuGrid.square_elim_step comparison r c s pos = .ok s1)
    (hs : grid_shape s.1) : grid_shape s1.1 := by
  unfold SudokuGrid.square_elim_step at h
  exact elim_or_skip_shape2 _ _ _ _ _ _ h hs

theorem propagate_from_cell_eq (g : SudokuGrid) (r c : Nat) :
    SudokuGrid.propagate_from_cell g r c =
      match (List.range g.grid.length).foldlM
          (SudokuGrid.row_col_elim_step (g.cell r c) r c) (g, 0) with
      | .error e => .error e
      | .ok rc =>
        (SudokuGrid.square_indices (SudokuGrid.get_square_code r c)).foldlM
          (SudokuGrid.square_elim_step (g.cell r c) r c) rc := rfl

theorem propagate_from_cell_shape (g : SudokuGrid) (r c : Nat)
    (s1 : SudokuGrid × Nat)
    (h : SudokuGrid.propagate_from_cell g r c = .ok s1)
    (hs : grid_shape g) : grid_shape s1.1 := by
  rw [propagate_from_cell_eq] at h
  cases hfold : (List.range g.grid.length).foldlM
      (SudokuGrid.row_col_elim_step (g.cell r c) r c) (g, 0) with
  | error e =>
    rw [hfold] at h
    cases h
  | ok rc =>
    rw [hfold] at h
    have hmid : grid_shape rc.1 := by
      refine foldlM_ok_preserve (fun s => grid_shape s.1) _ ?_ _ (g, 0) rc hs hfold
      intro s k s3 hP hstep
      exact row_col_elim_step_shape _ _ _ _ _ hstep hP
    refine foldlM_ok_preserve (fun s => grid_shape s.1) _ ?_ _ rc s1 hmid h
    intro s pos s3 hP hstep
    exact square_elim_step_shape _ _ _ _ _ _ hstep hP

theorem propagation_pass_shape (g : SudokuGrid) (s1 : SudokuGrid × Nat)
    (h : SudokuGrid.propagation_pass g = .ok s1) (hs : grid_shape g) :
    grid_shape s1.1 := by
  unfold SudokuGrid.propagation_pass at h
  refine foldlM_ok_preserve (fun s => grid_shape s.1) _ ?_ _ (g, 0) s1 hs h
  intro s row s2 hP hstep
  refine foldlM_ok_preserve (fun s => grid_shape s.1) _ ?_ _ s s2 hP hstep
  intro s3 column s4 hP3 hstep3
  by_cases hcond : ((s3.1.cell row column).is_value_certain &&
      ! s3.1.used row column) = true
  · rw [if_pos hcond] at hstep3
    cases hp : SudokuGrid.propagate_from_cell s3.1 row column with
    | error e => rw [hp] at hstep3; cases hstep3
    | ok p =>
      rw [hp] at hstep3
      simp only [Except.ok.injEq] at hstep3
      rw [← hstep3]
      exact grid_shape_set_used _ _ _ _
        (propagate_from_cell_shape s3.1 row column p hp hP3)
  · rw [if_neg hcond] at hstep3
    cases hstep3
    exact hP3

theorem hidden_single_value_shape (g : SudokuGrid) (idxs : List (Nat × Nat))
    (v : Int) (n : Nat) (s1 : SudokuGrid × Nat)
    (h : SudokuGrid.hidden_single_value g idxs v n = .ok s1)
    (hs : grid_shape g) : grid_shape s1.1 := by
  unfold SudokuGrid.hidden_single_value at h
  by_cases h1 : ((SudokuGrid.collect_possible_cells g v idxs []).length == 1) = true
  · rw [if_pos h1] at h
    simp only [Except.ok.injEq] at h
    rw [← h]
    exact grid_shape_set_cell _ _ _ _ hs
  · rw [if_neg h1] at h
    by_cases h0 : ((SudokuGrid.collect_possible_cells g v idxs []).length == 0) = true
    · rw [if_pos h0] at h
      cases h
    · rw [if_neg h0] at h
      simp only [Except.ok.injEq] at h
      rw [← h]
      exact hs

theorem hidden_single_pass_shape (g : SudokuGrid) (n : Nat)
    (s1 : SudokuGrid × Nat)
    (h : SudokuGrid.hidden_single_pass g n = .ok s1) (hs : grid_shape g) :
    grid_shape s1.1 := by
  unfold SudokuGrid.hidden_single_pass at h
  refine foldlM_ok_preserve (fun s => grid_shape s.1) _ ?_ _ (g, n) s1 hs h
  intro s code s3 hP hstep
  unfold SudokuGrid.hidden_single_square at hstep
  refine foldlM_ok_preserve (fun s => grid_shape s.1) _ ?_ _ (s.1, s.2) s3 hP hstep
  intro s4 v s5 hP4 hstep4
  exact hidden_single_value_shape _ _ _ _ _ hstep4 hP4

theorem solve_iteration_shape (g : SudokuGrid) (s1 : SudokuGrid × Nat)
    (h : SudokuGrid.solve_iteration g = .ok s1) (hs : grid_shape g) :
    grid_shape s1.1 := by
  unfold SudokuGrid.solve_iteration at h
  cases hp : SudokuGrid.propagation_pass g with
  | error e => rw [hp] at h; cases h
  | ok s2 =>
    rw [hp] at h
    exact hidden_single_pass_shape s2.1 s2.2 s1 h
      (propagation_pass_shape g s2 hp hs)

theorem is_solved_go_shape :
    ∀ (idxs : List (Nat × Nat)) (g : SudokuGrid) (b : Bool) (g1 : SudokuGrid),
      grid_shape g → SudokuGrid.is_solved_go g idxs = some (.ok (b, g1)) →
      grid_shape g1 := by
  intro idxs
  induction idxs with
  | nil =>
    intro g b g1 hs h
    simp only [SudokuGrid.is_solved_go, Option.some.injEq, Except.ok.injEq,
      Prod.mk.injEq] at h
    rw [← h.2]
    exact hs
  | cons pos rest ih =>
    intro g b g1 hs h
    obtain ⟨row, column⟩ := pos
    rw [SudokuGrid.is_solved_go] at h
    by_cases hcert : (g.cell row column).is_value_certain = true
    · rw [if_pos hcert] at h
      exact ih g b g1 hs h
    · rw [if_neg hcert] at h
      split at h
      · simp at h
      · next cd hdet =>
        by_cases hcd : cd.is_value_certain = true
        · rw [if_pos hcd] at h
          exact ih _ b g1 (grid_shape_set_cell g row column cd hs) h
        · rw [if_neg hcd] at h
          cases h
      · simp only [Option.some.injEq, Except.ok.injEq, Prod.mk.injEq] at h
        rw [← h.2]
        exact hs

theorem is_solved_shape (g : SudokuGrid) (b : Bool) (g1 : SudokuGrid)
    (hs : grid_shape g) (h : SudokuGrid.is_solved g = some (.ok (b, g1))) :
    grid_shape g1 :=
  is_solved_go_shape (SudokuGrid.scan_order g) g b g1 hs h

theorem is_solved_go_preserves_certain :
    ∀ (idxs : List (Nat × Nat)) (g : SudokuGrid) (b : Bool) (g1 : SudokuGrid)
      (r c : Nat),
      SudokuGrid.is_solved_go g idxs = some (.ok (b, g1)) →
      (g.cell r c).is_value_certain = true →
      (g1.cell r c).is_value_certain = true := by
  intro idxs
  induction idxs with
  | nil =>
    intro g b g1 r c h hc
    simp only [SudokuGrid.is_solved_go, Option.some.injEq, Except.ok.injEq,
      Prod.mk.injEq] at h
    rw [← h.2]
    exact hc
  | cons pos rest ih =>
    intro g b g1 r c h hc
    obtain ⟨row, column⟩ := pos
    rw [SudokuGrid.is_solved_go] at h
    by_cases hcert : (g.cell row column).is_value_certain = true
    · rw [if_pos hcert] at h
      exact ih g b g1 r c h hc
    · rw [if_neg hcert] at h
      split at h
      · simp at h
      · next cd hdet =>
        by_cases hcd : cd.is_value_certain = true
        · rw [if_pos hcd] at h
          refine ih _ b g1 r c h ?_
          rcases cell_set_cell_cases g row column r c cd with hcase | hcase
          · rw [hcase]
            exact hc
          · rw [hcase.2.2]
            exact hcd
        · rw [if_neg hcd] at h
          cases h
      · simp only [Option.some.injEq, Except.ok.injEq, Prod.mk.injEq] at h
        rw [← h.2]
        exact hc

theorem is_solved_go_true_all_certain :
    ∀ (idxs : List (Nat × Nat)) (g : SudokuGrid) (g1 : SudokuGrid),
      grid_shape g → (∀ pos ∈ idxs, pos.1 < 9 ∧ pos.2 < 9) →
      SudokuGrid.is_solved_go g idxs = some (.ok (true, g1)) →
      ∀ pos ∈ idxs, (g1.cell pos.1 pos.2).is_value_certain = true := by
  intro idxs
  induction idxs with
  | nil =>
    intro g g1 _ _ _ pos hpos
    cases hpos
  | cons pos0 rest ih =>
    intro g g1 hs hbound h pos hpos
    obtain ⟨row, column⟩ := pos0
    rw [SudokuGrid.is_solved_go] at h
    by_cases hcert : (g.cell row column).is_value_certain = true
    · rw [if_pos hcert] at h
      rcases List.mem_cons.mp hpos with hp | hp
      · subst hp
        exact is_solved_go_preserves_certain rest g true g1 _ _ h hcert
      · exact ih g g1 hs (fun q hq => hbound q (List.mem_cons_of_mem _ hq)) h pos hp
    · rw [if_neg hcert] at h
      split at h
      · simp at h
      · next cd hdet =>
        by_cases hcd : cd.is_value_certain = true
        · rw [if_pos hcd] at h
          rcases List.mem_cons.mp hpos with hp | hp
          · subst hp
            refine is_solved_go_preserves_certain rest _ true g1 _ _ h ?_
            have hbnd := hbound (row, column) (List.mem_cons_self _ _)
            show ((g.set_cell row column cd).cell row column).is_value_certain = true
            have heq : (g.set_cell row column cd).cell row column = cd := by
              apply mget_mset_eq
              · rw [hs.1]
                exact hbnd.1
              · have hrl : (g.grid.getD row []).length = 9 := by
                  apply hs.2
                  rw [List.getD_eq_getElem _ [] (by rw [hs.1]; exact hbnd.1)]
                  exact List.getElem_mem _
                rw [hrl]
                exact hbnd.2
            rw [heq]
            exact hcd
          · exact ih _ g1 (grid_shape_set_cell g row column cd hs)
              (fun q hq => hbound q (List.mem_cons_of_mem _ hq)) h pos hp
        · rw [if_neg hcd] at h
          cases h
      · simp at h

theorem scan_order_bounds (g : SudokuGrid) (hs : grid_shape g) :
    ∀ pos ∈ SudokuGrid.scan_order g, pos.1 < 9 ∧ pos.2 < 9 := by
  intro pos hpos
  unfold SudokuGrid.scan_order at hpos
  obtain ⟨index, hindex, heq⟩ := List.mem_map.mp hpos
  rw [List.mem_range] at hindex
  have hrow0 : (g.grid.getD 0 []).length = 9 := by
    apply hs.2
    rw [List.getD_eq_getElem _ [] (by rw [hs.1]; omega)]
    exact List.getElem_mem _
  rw [hs.1, hrow0] at hindex
  rw [← heq]
  simp only [hrow0]
  omega

theorem scan_order_mem (g : SudokuGrid) (hs : grid_shape g) (r c : Nat)
    (hr : r < 9) (hc : c < 9) : (r, c) ∈ SudokuGrid.scan_order g := by
  unfold SudokuGrid.scan_order
  have hrow0 : (g.grid.getD 0 []).length = 9 := by
    apply hs.2
    rw [List.getD_eq_getElem _ [] (by rw [hs.1]; omega)]
    exact List.getElem_mem _
  rw [List.mem_map]
  refine ⟨9 * r + c, ?_, ?_⟩
  · rw [List.mem_range, hs.1, hrow0]
    omega
  · simp only [hrow0]
    have hmod : (9 * r + c) % 9 = c := by omega
    rw [hmod]
    have hdiv : (9 * r + c - c) / 9 = r := by omega
    rw [hdiv]

theorem is_solved_true_all_certain (g : SudokuGrid) (g1 : SudokuGrid)
    (hs : grid_shape g) (h : SudokuGrid.is_solved g = some (.ok (true, g1))) :
    ∀ r c : Nat, r < 9 → c < 9 → (g1.cell r c).is_value_certain = true := by
  intro r c hr hc
  exact is_solved_go_true_all_certain (SudokuGrid.scan_order g) g g1 hs
    (scan_order_bounds g hs) h (r, c) (scan_order_mem g hs r c hr hc)

theorem solve_loop_true_all_certain :
    ∀ (fuel : Nat) (g : SudokuGrid) (num : Int) (g1 : SudokuGrid),
      grid_shape g → SudokuGrid.solve_loop fuel g num = some (.ok (true, g1)) →
      ∀ r c : Nat, r < 9 → c < 9 → (g1.cell r c).is_value_certain = true := by
  intro fuel
  induction fuel with
  | zero =>
    intro g num g1 _ h
    cases h
  | succ n ih =>
    intro g num g1 hs h
    rw [SudokuGrid.solve_loop] at h
    by_cases hnum : (num == 0) = true
    · rw [if_pos hnum] at h
      exact is_solved_true_all_certain g g1 hs h
    · rw [if_neg hnum] at h
      cases hsolved : SudokuGrid.is_solved g with
      | none =>
        rw [hsolved] at h
        cases h
      | some e =>
        rw [hsolved] at h
        match e, hsolved with
        | .error err, hsolved =>
          simp at h
        | .ok (true, g2), hsolved =>
          simp only [] at h
          exact is_solved_true_all_certain g2 g1
            (is_solved_shape g true g2 hs hsolved) h
        | .ok (false, g2), hsolved =>
          simp only [] at h
          have hs2 : grid_shape g2 := is_solved_shape g false g2 hs hsolved
          cases hiter : SudokuGrid.solve_iteration g2 with
          | error err =>
            rw [hiter] at h
            cases h
          | ok s =>
            rw [hiter] at h
            exact ih s.1 (Int.ofNat s.2) g1
              (solve_iteration_shape g2 s hiter hs2) h

/-- C1 (amended): when solve returns true on a 9x9-shaped grid, every cell
of the final grid is certain (holds a nonzero value).  The claimed full
row/column/box uniqueness does not hold in general, because solve checks
only certainty: see the counterexample. -/
theorem solve_true_all_cells_determined (g : SudokuGrid) (fuel : Nat)
    (g1 : SudokuGrid) (hs : grid_shape g)
    (h : SudokuGrid.solve g fuel = some (.ok (true, g1))) :
    ∀ r c : Nat, r < 9 → c < 9 → (g1.cell r c).is_value_certain = true :=
  solve_loop_true_all_certain fuel g (-1) g1 hs h

/-- C1 counterexample: on the all-fives matrix solve returns true at once,
yet row 0 of the resulting matrix contains the digit 1 zero times and the
digit 5 nine times, so not every row contains each of 1..9 exactly once. -/
theorem solve_true_without_uniqueness :
    SudokuGrid.solve (SudokuGrid.create_from_matrix all_fives_matrix) 1 =
      some (.ok (true, SudokuGrid.create_from_matrix all_fives_matrix)) ∧
    ((SudokuGrid.create_from_matrix all_fives_matrix).get_as_matrix.getD 0
      []).count 1 = 0 ∧
    ((SudokuGrid.create_from_matrix all_fives_matrix).get_as_matrix.getD 0
      []).count 5 = 9 := by
  decide

/-- Witness for C1 on the all-fives grid. -/
theorem solve_true_all_cells_determined_witness :
    grid_shape (SudokuGrid.create_from_matrix all_fives_matrix) ∧
    ((SudokuGrid.create_from_matrix all_fives_matrix).cell 0
      0).is_value_certain = true :=
  ⟨by decide,
   solve_true_all_cells_determined (SudokuGrid.create_from_matrix all_fives_matrix)
     1 (SudokuGrid.create_from_matrix all_fives_matrix) (by decide) (by decide)
     0 0 (by decide) (by decide)⟩

/-- One solve iteration moves flip_grid to flip_state_a with 2 determinations. -/
theorem iter_flip0 :
    SudokuGrid.solve_iteration flip_grid = .ok (flip_state_a, 2) := by decide

/-- One solve iteration moves flip_state_a to flip_state_b with 2 determinations. -/
theorem iter_flip_a :
    SudokuGrid.solve_iteration flip_state_a = .ok (flip_state_b, 2) := by decide

/-- One solve iteration moves flip_state_b back to flip_state_a. -/
theorem iter_flip_b :
    SudokuGrid.solve_iteration flip_state_b = .ok (flip_state_a, 2) := by decide

/-- flip_grid is not solved and is_solved leaves it unchanged. -/
theorem solved_flip0 :
    SudokuGrid.is_solved flip_grid = some (.ok (false, flip_grid)) := by decide

/-- flip_state_a is not solved and is_solved leaves it unchanged. -/
theorem solved_flip_a :
    SudokuGrid.is_solved flip_state_a = some (.ok (false, flip_state_a)) := by
  decide

/-- flip_state_b is not solved and is_solved leaves it unchanged. -/
theorem solved_flip_b :
    SudokuGrid.is_solved flip_state_b = some (.ok (false, flip_state_b)) := by
  decide

/-- From either flip state with a nonzero count, the solve loop exhausts
any fuel. -/
theorem flip_loop_never_stops : ∀ fuel : Nat,
    SudokuGrid.solve_loop fuel flip_state_a 2 = none ∧
    SudokuGrid.solve_loop fuel flip_state_b 2 = none := by
  intro fuel
  induction fuel with
  | zero => exact ⟨rfl, rfl⟩
  | succ n ih =>
    constructor
    · show SudokuGrid.solve_loop (n + 1) flip_state_a 2 = none
      rw [SudokuGrid.solve_loop]
      rw [if_neg (by decide)]
      simp only [solved_flip_a, iter_flip_b]
      exact ih.2
    · show SudokuGrid.solve_loop (n + 1) flip_state_b 2 = none
      rw [SudokuGrid.solve_loop]
      rw [if_neg (by decide)]
      simp only [solved_flip_b, iter_flip_a]
      exact ih.1

/-- C4: refuted.  solve does not terminate on the grid built from
flip_matrix: for every iteration budget the loop is still running (none).
The hidden-single pass keeps rewriting the values of the certain cells at
(0,0) and (0,3) - their stale, still-full candidate lists make each the
unique counted holder of an absent digit - so every iteration reports two
new determinations, for ever, refuting the claimed 82-iteration bound. -/
theorem solve_flip_grid_never_terminates :
    ∀ fuel : Nat, SudokuGrid.solve flip_grid fuel = none := by
  intro fuel
  cases fuel with
  | zero => rfl
  | succ n =>
    show SudokuGrid.solve_loop (n + 1) flip_grid (-1) = none
    rw [SudokuGrid.solve_loop]
    rw [if_neg (by decide)]
    simp only [solved_flip0, iter_flip0]
    exact (flip_loop_never_stops n).1
